import Mathlib

/-!
Verification of the `mediawiki-html-sanitizer` token sanitizer
(`src/lib/TokenSanitizer.js`, `src/lib/utils/Util.js`, `src/lib/parser.defines.js`).

Modelling conventions used throughout this development:

* A JavaScript string is modelled as a list of UTF-16 code units
  (`JStr := List Nat`, each element `< 0x10000`).  All the regular
  expressions in the source run without the `u` flag, i.e. per code unit,
  so this is the level at which they are embedded.
* JavaScript plain objects used as dictionaries (the entity table, the
  per-tag attribute whitelist, `newAttrs` in `sanitizeTagAttrs`, the
  `dataAttribs.a` / `dataAttribs.sa` shadow maps) are modelled as
  association lists over their own properties, with JS insertion-order
  update semantics (`upsert`).
* `null` and `undefined` are modelled with `Option` or with the three
  valued `JsVal` where the source distinguishes the two.
* Exceptions (`TypeError` from dereferencing `undefined`, `RangeError`
  from `String.fromCodePoint`, `URIError` from `encodeURIComponent`,
  and the explicit `throw new Error` in `escapeIdInternal`) are modelled
  with `Except JsError`.
* Each regular expression of the source is compiled by hand to an
  executable scanner with the exact backtracking semantics of the
  original pattern; the large Unicode character classes of
  `getAttribsRegex` are transcribed range-by-range from the source.
-/

/-- A JavaScript string: a sequence of UTF-16 code units. -/
abbrev JStr := List Nat

/-- UTF-16 encoding of one Unicode scalar value (surrogate pair for
astral code points). -/
def utf16Char (c : Char) : List Nat :=
  if c.toNat < 0x10000 then [c.toNat]
  else [0xD800 + (c.toNat - 0x10000) / 0x400, 0xDC00 + (c.toNat - 0x10000) % 0x400]

/-- Convert a Lean string literal to its JavaScript (UTF-16) form. -/
def jstr (s : String) : JStr := s.data.flatMap utf16Char

/-- JS `String.fromCodePoint` for a single code point that is known to be
at most 0x10FFFF (the callers below check this before calling). -/
def fromCodePointUnits (cp : Nat) : JStr :=
  if cp < 0x10000 then [cp]
  else [0xD800 + (cp - 0x10000) / 0x400, 0xDC00 + (cp - 0x10000) % 0x400]

/-- The JavaScript error values that the embedded code can raise. -/
inductive JsError where
  /-- dereferencing `undefined`/`null` -/
  | typeError : JsError
  /-- The `String.fromCodePoint` on a code point above 0x10FFFF -/
  | rangeError : JsError
  /-- The `encodeURIComponent` on a lone surrogate -/
  | uriError : JsError
  /-- an explicit `throw new Error(msg)` -/
  | jsThrow (msg : JStr) : JsError
deriving DecidableEq, Repr

/-- A JavaScript value that may be `undefined`, `null` or a string;
used where the source distinguishes the three. -/
inductive JsVal where
  | undef : JsVal
  | null : JsVal
  | str (s : JStr) : JsVal
deriving DecidableEq, Repr

/-- The `a || b` on a nullable string, with JS truthiness (the empty string
is falsy). -/
def orFalsy (a : Option JStr) (b : JStr) : JStr :=
  match a with
  | some s => if s = [] then b else s
  | none => b

/-- ASCII `toLowerCase` on one code unit.  (JS `toLowerCase` implements
full Unicode case mapping; every use in the claims below only involves
code points on which the two agree.) -/
def lowerUnit (u : Nat) : Nat := if 65 ≤ u ∧ u ≤ 90 then u + 32 else u

/-- ASCII `toUpperCase` on one code unit (same caveat as `lowerUnit`). -/
def upperUnit (u : Nat) : Nat := if 97 ≤ u ∧ u ≤ 122 then u - 32 else u

def jsToLower (s : JStr) : JStr := s.map lowerUnit

def jsToUpper (s : JStr) : JStr := s.map upperUnit

/-- The WhiteSpace ∪ LineTerminator set used by `String.prototype.trim`. -/
def isTrimWS (u : Nat) : Bool :=
  u = 9 ∨ u = 0xA ∨ u = 0xB ∨ u = 0xC ∨ u = 0xD ∨ u = 0x20 ∨ u = 0xA0 ∨
  u = 0x1680 ∨ (0x2000 ≤ u ∧ u ≤ 0x200A) ∨ u = 0x2028 ∨ u = 0x2029 ∨
  u = 0x202F ∨ u = 0x205F ∨ u = 0x3000 ∨ u = 0xFEFF

/-- JS `String.prototype.trim`. -/
def jsTrim (s : JStr) : JStr :=
  ((s.dropWhile isTrimWS).reverse.dropWhile isTrimWS).reverse

/-- The `\s` character class of JS regular expressions. -/
def isJsSpace (u : Nat) : Bool := isTrimWS u

/-- JS line terminators (the characters `.` does not match). -/
def isLineTerm (u : Nat) : Bool :=
  u = 0xA ∨ u = 0xD ∨ u = 0x2028 ∨ u = 0x2029

/-- Does `s` start with the literal `pre`? -/
def startsWithLit (pre s : JStr) : Bool := s.take pre.length = pre

/-- First index at which the literal `pat` occurs in `s`
(JS `String.prototype.indexOf`, result `-1` modelled as `none`). -/
def indexOfLit (pat : JStr) : JStr → Option Nat
  | [] => if pat = [] then some 0 else none
  | u :: rest =>
    if startsWithLit pat (u :: rest) then some 0
    else (indexOfLit pat rest).map (· + 1)

/-- Fuel-driven scanner for the global left-to-right replacement of the
non-empty literal `pat` by `rep`; a match consumes at least one unit,
so `fuel = length` suffices. -/
def replaceAllLitGo (pat rep : JStr) : Nat → JStr → JStr
  | 0, s => s
  | _ + 1, [] => []
  | fuel + 1, u :: rest =>
    if startsWithLit pat (u :: rest) ∧ pat ≠ [] then
      rep ++ replaceAllLitGo pat rep fuel ((u :: rest).drop pat.length)
    else
      u :: replaceAllLitGo pat rep fuel rest

/-- JS `String.prototype.replace` with a global literal-only
pattern. -/
def replaceAllLit (pat rep s : JStr) : JStr := replaceAllLitGo pat rep s.length s

/-- Membership of a code unit in a list of inclusive ranges. -/
def inRanges (rs : List (Nat × Nat)) (u : Nat) : Bool :=
  rs.any fun p => p.1 ≤ u ∧ u ≤ p.2

/-- Association-list lookup (JS own-property access on an object used as
a dictionary). -/
def assocFind {α : Type} (m : List (JStr × α)) (k : JStr) : Option α :=
  match m.find? (fun e => e.1 = k) with
  | some e => some e.2
  | none => none

/-- JS object property assignment: an existing key keeps its position
and gets the new value, a fresh key is appended. -/
def upsert {α : Type} (m : List (JStr × α)) (k : JStr) (v : α) : List (JStr × α) :=
  if m.any (fun e => e.1 = k) then
    m.map (fun e => if e.1 = k then (k, v) else e)
  else
    m ++ [(k, v)]

/-! ### `src/lib/utils/Util.js` -/

/-- The `Util.validateCodepoint`: true iff the code point is a valid XML 1.0
character. -/
def validateCodepoint (cp : Nat) : Bool :=
  (cp = 0x09) ∨
  (cp = 0x0a) ∨
  (cp = 0x0d) ∨
  (0x20 ≤ cp ∧ cp ≤ 0xd7ff) ∨
  (0xe000 ≤ cp ∧ cp ≤ 0xfffd) ∨
  (0x10000 ≤ cp ∧ cp ≤ 0x10ffff)

/-- The `Util.codepointToUtf8` = `String.fromCodePoint`, which raises a
`RangeError` above 0x10FFFF. -/
def codepointToUtf8 (cp : Nat) : Except JsError JStr :=
  if cp ≤ 0x10FFFF then .ok (fromCodePointUnits cp) else .error .rangeError

/-- The `Util.utf8ToCodepoint` = `String.prototype.codePointAt(0)`:
first code unit, combining a well-formed surrogate pair. -/
def utf8ToCodepoint (s : JStr) : Option Nat :=
  match s with
  | [] => none
  | u :: rest =>
    if 0xD800 ≤ u ∧ u ≤ 0xDBFF then
      match rest with
      | v :: _ =>
        if 0xDC00 ≤ v ∧ v ≤ 0xDFFF then
          some (0x10000 + (u - 0xD800) * 0x400 + (v - 0xDC00))
        else some u
      | [] => some u
    else some u

/-- The characters `encodeURIComponent` leaves unescaped:
`A-Z a-z 0-9 - _ . ! ~ * ' ( )`. -/
def uriUnreserved (u : Nat) : Bool :=
  (65 ≤ u ∧ u ≤ 90) ∨ (97 ≤ u ∧ u ≤ 122) ∨ (48 ≤ u ∧ u ≤ 57) ∨
  u = 45 ∨ u = 95 ∨ u = 46 ∨ u = 33 ∨ u = 126 ∨ u = 42 ∨ u = 39 ∨
  u = 40 ∨ u = 41

/-- UTF-8 bytes of a Unicode scalar value `cp ≤ 0x10FFFF`. -/
def utf8Bytes (cp : Nat) : List Nat :=
  if cp < 0x80 then [cp]
  else if cp < 0x800 then [0xC0 + cp / 0x40, 0x80 + cp % 0x40]
  else if cp < 0x10000 then
    [0xE0 + cp / 0x1000, 0x80 + cp / 0x40 % 0x40, 0x80 + cp % 0x40]
  else
    [0xF0 + cp / 0x40000, 0x80 + cp / 0x1000 % 0x40, 0x80 + cp / 0x40 % 0x40,
      0x80 + cp % 0x40]

/-- One uppercase hexadecimal digit. -/
def hexDigitU (n : Nat) : Nat := if n < 10 then 48 + n else 55 + n

/-- The `%XX` percent escape of one byte (uppercase, as `encodeURIComponent`
produces). -/
def pctByte (b : Nat) : JStr := [37, hexDigitU (b / 16), hexDigitU (b % 16)]

/-- JS `encodeURIComponent`: keeps the unreserved characters, percent
escapes the UTF-8 bytes of everything else, and raises a `URIError` on a
lone surrogate. -/
def encodeURIComponent : JStr → Except JsError JStr
  | [] => .ok []
  | u :: rest =>
    if uriUnreserved u then
      (encodeURIComponent rest).map (u :: ·)
    else if 0xD800 ≤ u ∧ u ≤ 0xDBFF then
      match rest with
      | v :: rest2 =>
        if 0xDC00 ≤ v ∧ v ≤ 0xDFFF then
          (encodeURIComponent rest2).map
            ((utf8Bytes (0x10000 + (u - 0xD800) * 0x400 + (v - 0xDC00))).flatMap pctByte ++ ·)
        else .error .uriError
      | [] => .error .uriError
    else if 0xDC00 ≤ u ∧ u ≤ 0xDFFF then .error .uriError
    else
      (encodeURIComponent rest).map ((utf8Bytes u).flatMap pctByte ++ ·)

/-- The `Util.phpURLEncode`: `encodeURIComponent`, re-escape `! ' ( ) * ~`,
then turn `%20` into `+`. -/
def phpURLEncode (txt : JStr) : Except JsError JStr :=
  (encodeURIComponent txt).map fun s =>
    replaceAllLit (jstr "%20") (jstr "+")
      (replaceAllLit (jstr "~") (jstr "%7E")
        (replaceAllLit (jstr "*") (jstr "%2A")
          (replaceAllLit (jstr ")") (jstr "%29")
            (replaceAllLit (jstr "(") (jstr "%28")
              (replaceAllLit (jstr "'") (jstr "%27")
                (replaceAllLit (jstr "!") (jstr "%21") s))))))

/-- A token attribute key-value pair (`KV` of `parser.defines.js`).
Keys and values are taken after flattening of nested token sequences
(`Util.tokensToString`), which the spec treats as an external concern. -/
structure KV where
  k : JStr
  v : JStr
  ksrc : Option JStr := none
  vsrc : Option JStr := none
deriving DecidableEq, Repr

/-- The `Util.lookupKV`: first pair whose (trimmed, string) key equals
`key`. -/
def lookupKV (kvs : List KV) (key : JStr) : Option KV :=
  kvs.find? (fun kv => jsTrim kv.k = key)

/-- The `Util.lookup`: the value of the first matching pair, JS `null` when
absent. -/
def lookup (kvs : List KV) (key : JStr) : JsVal :=
  match lookupKV kvs key with
  | some kv => .str kv.v
  | none => .null

/-! ### `getAttribsRegex` (`src/lib/TokenSanitizer.js` line 651)

The transpiled form of `/^[:_\p{L}\p{N}][:_\.\-\p{L}\p{N}]*$/u` at
Unicode 10.0.0.  The code-unit character classes and the
lead-surrogate/trail-surrogate alternatives are transcribed
range-by-range from the source literal. -/

def attribsFirstBMP : List (Nat × Nat) := [
  (48, 58), (65, 90), (95, 95), (97, 122), (170, 170), (178, 178), (179, 179), (181, 181),
  (185, 185), (186, 186), (188, 190), (192, 214), (216, 246), (248, 705), (710, 721), (736, 740),
  (748, 748), (750, 750), (880, 884), (886, 886), (887, 887), (890, 893), (895, 895), (902, 902),
  (904, 906), (908, 908), (910, 929), (931, 1013), (1015, 1153), (1162, 1327), (1329, 1366), (1369, 1369),
  (1377, 1415), (1488, 1514), (1520, 1522), (1568, 1610), (1632, 1641), (1646, 1646), (1647, 1647), (1649, 1747),
  (1749, 1749), (1765, 1765), (1766, 1766), (1774, 1788), (1791, 1791), (1808, 1808), (1810, 1839), (1869, 1957),
  (1969, 1969), (1984, 2026), (2036, 2036), (2037, 2037), (2042, 2042), (2048, 2069), (2074, 2074), (2084, 2084),
  (2088, 2088), (2112, 2136), (2144, 2154), (2208, 2228), (2230, 2237), (2308, 2361), (2365, 2365), (2384, 2384),
  (2392, 2401), (2406, 2415), (2417, 2432), (2437, 2444), (2447, 2447), (2448, 2448), (2451, 2472), (2474, 2480),
  (2482, 2482), (2486, 2489), (2493, 2493), (2510, 2510), (2524, 2524), (2525, 2525), (2527, 2529), (2534, 2545),
  (2548, 2553), (2556, 2556), (2565, 2570), (2575, 2575), (2576, 2576), (2579, 2600), (2602, 2608), (2610, 2610),
  (2611, 2611), (2613, 2613), (2614, 2614), (2616, 2616), (2617, 2617), (2649, 2652), (2654, 2654), (2662, 2671),
  (2674, 2676), (2693, 2701), (2703, 2705), (2707, 2728), (2730, 2736), (2738, 2738), (2739, 2739), (2741, 2745),
  (2749, 2749), (2768, 2768), (2784, 2784), (2785, 2785), (2790, 2799), (2809, 2809), (2821, 2828), (2831, 2831),
  (2832, 2832), (2835, 2856), (2858, 2864), (2866, 2866), (2867, 2867), (2869, 2873), (2877, 2877), (2908, 2908),
  (2909, 2909), (2911, 2913), (2918, 2927), (2929, 2935), (2947, 2947), (2949, 2954), (2958, 2960), (2962, 2965),
  (2969, 2969), (2970, 2970), (2972, 2972), (2974, 2974), (2975, 2975), (2979, 2979), (2980, 2980), (2984, 2986),
  (2990, 3001), (3024, 3024), (3046, 3058), (3077, 3084), (3086, 3088), (3090, 3112), (3114, 3129), (3133, 3133),
  (3160, 3162), (3168, 3168), (3169, 3169), (3174, 3183), (3192, 3198), (3200, 3200), (3205, 3212), (3214, 3216),
  (3218, 3240), (3242, 3251), (3253, 3257), (3261, 3261), (3294, 3294), (3296, 3296), (3297, 3297), (3302, 3311),
  (3313, 3313), (3314, 3314), (3333, 3340), (3342, 3344), (3346, 3386), (3389, 3389), (3406, 3406), (3412, 3414),
  (3416, 3425), (3430, 3448), (3450, 3455), (3461, 3478), (3482, 3505), (3507, 3515), (3517, 3517), (3520, 3526),
  (3558, 3567), (3585, 3632), (3634, 3634), (3635, 3635), (3648, 3654), (3664, 3673), (3713, 3713), (3714, 3714),
  (3716, 3716), (3719, 3719), (3720, 3720), (3722, 3722), (3725, 3725), (3732, 3735), (3737, 3743), (3745, 3747),
  (3749, 3749), (3751, 3751), (3754, 3754), (3755, 3755), (3757, 3760), (3762, 3762), (3763, 3763), (3773, 3773),
  (3776, 3780), (3782, 3782), (3792, 3801), (3804, 3807), (3840, 3840), (3872, 3891), (3904, 3911), (3913, 3948),
  (3976, 3980), (4096, 4138), (4159, 4169), (4176, 4181), (4186, 4189), (4193, 4193), (4197, 4197), (4198, 4198),
  (4206, 4208), (4213, 4225), (4238, 4238), (4240, 4249), (4256, 4293), (4295, 4295), (4301, 4301), (4304, 4346),
  (4348, 4680), (4682, 4685), (4688, 4694), (4696, 4696), (4698, 4701), (4704, 4744), (4746, 4749), (4752, 4784),
  (4786, 4789), (4792, 4798), (4800, 4800), (4802, 4805), (4808, 4822), (4824, 4880), (4882, 4885), (4888, 4954),
  (4969, 4988), (4992, 5007), (5024, 5109), (5112, 5117), (5121, 5740), (5743, 5759), (5761, 5786), (5792, 5866),
  (5870, 5880), (5888, 5900), (5902, 5905), (5920, 5937), (5952, 5969), (5984, 5996), (5998, 6000), (6016, 6067),
  (6103, 6103), (6108, 6108), (6112, 6121), (6128, 6137), (6160, 6169), (6176, 6263), (6272, 6276), (6279, 6312),
  (6314, 6314), (6320, 6389), (6400, 6430), (6470, 6509), (6512, 6516), (6528, 6571), (6576, 6601), (6608, 6618),
  (6656, 6678), (6688, 6740), (6784, 6793), (6800, 6809), (6823, 6823), (6917, 6963), (6981, 6987), (6992, 7001),
  (7043, 7072), (7086, 7141), (7168, 7203), (7232, 7241), (7245, 7293), (7296, 7304), (7401, 7404), (7406, 7409),
  (7413, 7413), (7414, 7414), (7424, 7615), (7680, 7957), (7960, 7965), (7968, 8005), (8008, 8013), (8016, 8023),
  (8025, 8025), (8027, 8027), (8029, 8029), (8031, 8061), (8064, 8116), (8118, 8124), (8126, 8126), (8130, 8132),
  (8134, 8140), (8144, 8147), (8150, 8155), (8160, 8172), (8178, 8180), (8182, 8188), (8304, 8304), (8305, 8305),
  (8308, 8313), (8319, 8329), (8336, 8348), (8450, 8450), (8455, 8455), (8458, 8467), (8469, 8469), (8473, 8477),
  (8484, 8484), (8486, 8486), (8488, 8488), (8490, 8493), (8495, 8505), (8508, 8511), (8517, 8521), (8526, 8526),
  (8528, 8585), (9312, 9371), (9450, 9471), (10102, 10131), (11264, 11310), (11312, 11358), (11360, 11492), (11499, 11502),
  (11506, 11506), (11507, 11507), (11517, 11517), (11520, 11557), (11559, 11559), (11565, 11565), (11568, 11623), (11631, 11631),
  (11648, 11670), (11680, 11686), (11688, 11694), (11696, 11702), (11704, 11710), (11712, 11718), (11720, 11726), (11728, 11734),
  (11736, 11742), (11823, 11823), (12293, 12295), (12321, 12329), (12337, 12341), (12344, 12348), (12353, 12438), (12445, 12447),
  (12449, 12538), (12540, 12543), (12549, 12590), (12593, 12686), (12690, 12693), (12704, 12730), (12784, 12799), (12832, 12841),
  (12872, 12879), (12881, 12895), (12928, 12937), (12977, 12991), (13312, 19893), (19968, 40938), (40960, 42124), (42192, 42237),
  (42240, 42508), (42512, 42539), (42560, 42606), (42623, 42653), (42656, 42735), (42775, 42783), (42786, 42888), (42891, 42926),
  (42928, 42935), (42999, 43009), (43011, 43013), (43015, 43018), (43020, 43042), (43056, 43061), (43072, 43123), (43138, 43187),
  (43216, 43225), (43250, 43255), (43259, 43259), (43261, 43261), (43264, 43301), (43312, 43334), (43360, 43388), (43396, 43442),
  (43471, 43481), (43488, 43492), (43494, 43518), (43520, 43560), (43584, 43586), (43588, 43595), (43600, 43609), (43616, 43638),
  (43642, 43642), (43646, 43695), (43697, 43697), (43701, 43701), (43702, 43702), (43705, 43709), (43712, 43712), (43714, 43714),
  (43739, 43741), (43744, 43754), (43762, 43764), (43777, 43782), (43785, 43790), (43793, 43798), (43808, 43814), (43816, 43822),
  (43824, 43866), (43868, 43877), (43888, 44002), (44016, 44025), (44032, 55203), (55216, 55238), (55243, 55291), (63744, 64109),
  (64112, 64217), (64256, 64262), (64275, 64279), (64285, 64285), (64287, 64296), (64298, 64310), (64312, 64316), (64318, 64318),
  (64320, 64320), (64321, 64321), (64323, 64323), (64324, 64324), (64326, 64433), (64467, 64829), (64848, 64911), (64914, 64967),
  (65008, 65019), (65136, 65140), (65142, 65276), (65296, 65305), (65313, 65338), (65345, 65370), (65382, 65470), (65474, 65479),
  (65482, 65487), (65490, 65495), (65498, 65500)]

def attribsFirstSurr : List ((Nat × Nat) × Nat × Nat) := [
  ((55296, 55296), 56320, 56331), ((55296, 55296), 56333, 56358), ((55296, 55296), 56360, 56378), ((55296, 55296), 56380, 56380),
  ((55296, 55296), 56381, 56381), ((55296, 55296), 56383, 56397), ((55296, 55296), 56400, 56413), ((55296, 55296), 56448, 56570),
  ((55296, 55296), 56583, 56627), ((55296, 55296), 56640, 56696), ((55296, 55296), 56714, 56714), ((55296, 55296), 56715, 56715),
  ((55296, 55296), 56960, 56988), ((55296, 55296), 56992, 57040), ((55296, 55296), 57057, 57083), ((55296, 55296), 57088, 57123),
  ((55296, 55296), 57133, 57162), ((55296, 55296), 57168, 57205), ((55296, 55296), 57216, 57245), ((55296, 55296), 57248, 57283),
  ((55296, 55296), 57288, 57295), ((55296, 55296), 57297, 57301), ((55297, 55297), 56320, 56477), ((55297, 55297), 56480, 56489),
  ((55297, 55297), 56496, 56531), ((55297, 55297), 56536, 56571), ((55297, 55297), 56576, 56615), ((55297, 55297), 56624, 56675),
  ((55297, 55297), 56832, 57142), ((55297, 55297), 57152, 57173), ((55297, 55297), 57184, 57191), ((55298, 55298), 56320, 56325),
  ((55298, 55298), 56328, 56328), ((55298, 55298), 56330, 56373), ((55298, 55298), 56375, 56375), ((55298, 55298), 56376, 56376),
  ((55298, 55298), 56380, 56380), ((55298, 55298), 56383, 56405), ((55298, 55298), 56408, 56438), ((55298, 55298), 56441, 56478),
  ((55298, 55298), 56487, 56495), ((55298, 55298), 56544, 56562), ((55298, 55298), 56564, 56564), ((55298, 55298), 56565, 56565),
  ((55298, 55298), 56571, 56603), ((55298, 55298), 56608, 56633), ((55298, 55298), 56704, 56759), ((55298, 55298), 56764, 56783),
  ((55298, 55298), 56786, 56832), ((55298, 55298), 56848, 56851), ((55298, 55298), 56853, 56855), ((55298, 55298), 56857, 56883),
  ((55298, 55298), 56896, 56903), ((55298, 55298), 56928, 56958), ((55298, 55298), 56960, 56991), ((55298, 55298), 57024, 57031),
  ((55298, 55298), 57033, 57060), ((55298, 55298), 57067, 57071), ((55298, 55298), 57088, 57141), ((55298, 55298), 57152, 57173),
  ((55298, 55298), 57176, 57202), ((55298, 55298), 57208, 57233), ((55298, 55298), 57257, 57263), ((55299, 55299), 56320, 56392),
  ((55299, 55299), 56448, 56498), ((55299, 55299), 56512, 56562), ((55299, 55299), 56570, 56575), ((55299, 55299), 56928, 56958),
  ((55300, 55300), 56323, 56375), ((55300, 55300), 56402, 56431), ((55300, 55300), 56451, 56495), ((55300, 55300), 56528, 56552),
  ((55300, 55300), 56560, 56569), ((55300, 55300), 56579, 56614), ((55300, 55300), 56630, 56639), ((55300, 55300), 56656, 56690),
  ((55300, 55300), 56694, 56694), ((55300, 55300), 56707, 56754), ((55300, 55300), 56769, 56772), ((55300, 55300), 56784, 56794),
  ((55300, 55300), 56796, 56796), ((55300, 55300), 56801, 56820), ((55300, 55300), 56832, 56849), ((55300, 55300), 56851, 56875),
  ((55300, 55300), 56960, 56966), ((55300, 55300), 56968, 56968), ((55300, 55300), 56970, 56973), ((55300, 55300), 56975, 56989),
  ((55300, 55300), 56991, 57000), ((55300, 55300), 57008, 57054), ((55300, 55300), 57072, 57081), ((55300, 55300), 57093, 57100),
  ((55300, 55300), 57103, 57103), ((55300, 55300), 57104, 57104), ((55300, 55300), 57107, 57128), ((55300, 55300), 57130, 57136),
  ((55300, 55300), 57138, 57138), ((55300, 55300), 57139, 57139), ((55300, 55300), 57141, 57145), ((55300, 55300), 57149, 57149),
  ((55300, 55300), 57168, 57168), ((55300, 55300), 57181, 57185), ((55301, 55301), 56320, 56372), ((55301, 55301), 56391, 56394),
  ((55301, 55301), 56400, 56409), ((55301, 55301), 56448, 56495), ((55301, 55301), 56516, 56516), ((55301, 55301), 56517, 56517),
  ((55301, 55301), 56519, 56519), ((55301, 55301), 56528, 56537), ((55301, 55301), 56704, 56750), ((55301, 55301), 56792, 56795),
  ((55301, 55301), 56832, 56879), ((55301, 55301), 56900, 56900), ((55301, 55301), 56912, 56921), ((55301, 55301), 56960, 57002),
  ((55301, 55301), 57024, 57033), ((55301, 55301), 57088, 57113), ((55301, 55301), 57136, 57147), ((55302, 55302), 56480, 56562),
  ((55302, 55302), 56575, 56575), ((55302, 55302), 56832, 56832), ((55302, 55302), 56843, 56882), ((55302, 55302), 56890, 56890),
  ((55302, 55302), 56912, 56912), ((55302, 55302), 56924, 56963), ((55302, 55302), 56966, 56969), ((55302, 55302), 57024, 57080),
  ((55303, 55303), 56320, 56328), ((55303, 55303), 56330, 56366), ((55303, 55303), 56384, 56384), ((55303, 55303), 56400, 56428),
  ((55303, 55303), 56434, 56463), ((55303, 55303), 56576, 56582), ((55303, 55303), 56584, 56584), ((55303, 55303), 56585, 56585),
  ((55303, 55303), 56587, 56624), ((55303, 55303), 56646, 56646), ((55303, 55303), 56656, 56665), ((55304, 55304), 56320, 57241),
  ((55305, 55305), 56320, 56430), ((55305, 55305), 56448, 56643), ((55308, 55308), 56320, 57343), ((55324, 55328), 56320, 57343),
  ((55360, 55400), 56320, 57343), ((55402, 55404), 56320, 57343), ((55407, 55410), 56320, 57343), ((55412, 55417), 56320, 57343),
  ((55309, 55309), 56320, 56366), ((55313, 55313), 56320, 56902), ((55322, 55322), 56320, 56888), ((55322, 55322), 56896, 56926),
  ((55322, 55322), 56928, 56937), ((55322, 55322), 57040, 57069), ((55322, 55322), 57088, 57135), ((55322, 55322), 57152, 57155),
  ((55322, 55322), 57168, 57177), ((55322, 55322), 57179, 57185), ((55322, 55322), 57187, 57207), ((55322, 55322), 57213, 57231),
  ((55323, 55323), 57088, 57156), ((55323, 55323), 57168, 57168), ((55323, 55323), 57235, 57247), ((55323, 55323), 57312, 57312),
  ((55323, 55323), 57313, 57313), ((55329, 55329), 56320, 57324), ((55330, 55330), 56320, 57074), ((55340, 55340), 56320, 56606),
  ((55340, 55340), 56688, 57083), ((55343, 55343), 56320, 56426), ((55343, 55343), 56432, 56444), ((55343, 55343), 56448, 56456),
  ((55343, 55343), 56464, 56473), ((55348, 55348), 57184, 57201), ((55349, 55349), 56320, 56404), ((55349, 55349), 56406, 56476),
  ((55349, 55349), 56478, 56478), ((55349, 55349), 56479, 56479), ((55349, 55349), 56482, 56482), ((55349, 55349), 56485, 56485),
  ((55349, 55349), 56486, 56486), ((55349, 55349), 56489, 56492), ((55349, 55349), 56494, 56505), ((55349, 55349), 56507, 56507),
  ((55349, 55349), 56509, 56515), ((55349, 55349), 56517, 56581), ((55349, 55349), 56583, 56586), ((55349, 55349), 56589, 56596),
  ((55349, 55349), 56598, 56604), ((55349, 55349), 56606, 56633), ((55349, 55349), 56635, 56638), ((55349, 55349), 56640, 56644),
  ((55349, 55349), 56646, 56646), ((55349, 55349), 56650, 56656), ((55349, 55349), 56658, 56997), ((55349, 55349), 57000, 57024),
  ((55349, 55349), 57026, 57050), ((55349, 55349), 57052, 57082), ((55349, 55349), 57084, 57108), ((55349, 55349), 57110, 57140),
  ((55349, 55349), 57142, 57166), ((55349, 55349), 57168, 57198), ((55349, 55349), 57200, 57224), ((55349, 55349), 57226, 57256),
  ((55349, 55349), 57258, 57282), ((55349, 55349), 57284, 57291), ((55349, 55349), 57294, 57343), ((55354, 55354), 56320, 56516),
  ((55354, 55354), 56519, 56527), ((55354, 55354), 56576, 56643), ((55354, 55354), 56656, 56665), ((55355, 55355), 56832, 56835),
  ((55355, 55355), 56837, 56863), ((55355, 55355), 56865, 56865), ((55355, 55355), 56866, 56866), ((55355, 55355), 56868, 56868),
  ((55355, 55355), 56871, 56871), ((55355, 55355), 56873, 56882), ((55355, 55355), 56884, 56887), ((55355, 55355), 56889, 56889),
  ((55355, 55355), 56891, 56891), ((55355, 55355), 56898, 56898), ((55355, 55355), 56903, 56903), ((55355, 55355), 56905, 56905),
  ((55355, 55355), 56907, 56907), ((55355, 55355), 56909, 56911), ((55355, 55355), 56913, 56913), ((55355, 55355), 56914, 56914),
  ((55355, 55355), 56916, 56916), ((55355, 55355), 56919, 56919), ((55355, 55355), 56921, 56921), ((55355, 55355), 56923, 56923),
  ((55355, 55355), 56925, 56925), ((55355, 55355), 56927, 56927), ((55355, 55355), 56929, 56929), ((55355, 55355), 56930, 56930),
  ((55355, 55355), 56932, 56932), ((55355, 55355), 56935, 56938), ((55355, 55355), 56940, 56946), ((55355, 55355), 56948, 56951),
  ((55355, 55355), 56953, 56956), ((55355, 55355), 56958, 56958), ((55355, 55355), 56960, 56969), ((55355, 55355), 56971, 56987),
  ((55355, 55355), 56993, 56995), ((55355, 55355), 56997, 57001), ((55355, 55355), 57003, 57019), ((55356, 55356), 56576, 56588),
  ((55401, 55401), 56320, 57046), ((55401, 55401), 57088, 57343), ((55405, 55405), 56320, 57140), ((55405, 55405), 57152, 57343),
  ((55406, 55406), 56320, 56349), ((55406, 55406), 56352, 57343), ((55411, 55411), 56320, 56993), ((55411, 55411), 57008, 57343),
  ((55418, 55418), 56320, 57312), ((55422, 55422), 56320, 56861)]

def attribsRestBMP : List (Nat × Nat) := [
  (45, 45), (46, 46), (48, 58), (65, 90), (95, 95), (97, 122), (170, 170), (178, 178),
  (179, 179), (181, 181), (185, 185), (186, 186), (188, 190), (192, 214), (216, 246), (248, 705),
  (710, 721), (736, 740), (748, 748), (750, 750), (880, 884), (886, 886), (887, 887), (890, 893),
  (895, 895), (902, 902), (904, 906), (908, 908), (910, 929), (931, 1013), (1015, 1153), (1162, 1327),
  (1329, 1366), (1369, 1369), (1377, 1415), (1488, 1514), (1520, 1522), (1568, 1610), (1632, 1641), (1646, 1646),
  (1647, 1647), (1649, 1747), (1749, 1749), (1765, 1765), (1766, 1766), (1774, 1788), (1791, 1791), (1808, 1808),
  (1810, 1839), (1869, 1957), (1969, 1969), (1984, 2026), (2036, 2036), (2037, 2037), (2042, 2042), (2048, 2069),
  (2074, 2074), (2084, 2084), (2088, 2088), (2112, 2136), (2144, 2154), (2208, 2228), (2230, 2237), (2308, 2361),
  (2365, 2365), (2384, 2384), (2392, 2401), (2406, 2415), (2417, 2432), (2437, 2444), (2447, 2447), (2448, 2448),
  (2451, 2472), (2474, 2480), (2482, 2482), (2486, 2489), (2493, 2493), (2510, 2510), (2524, 2524), (2525, 2525),
  (2527, 2529), (2534, 2545), (2548, 2553), (2556, 2556), (2565, 2570), (2575, 2575), (2576, 2576), (2579, 2600),
  (2602, 2608), (2610, 2610), (2611, 2611), (2613, 2613), (2614, 2614), (2616, 2616), (2617, 2617), (2649, 2652),
  (2654, 2654), (2662, 2671), (2674, 2676), (2693, 2701), (2703, 2705), (2707, 2728), (2730, 2736), (2738, 2738),
  (2739, 2739), (2741, 2745), (2749, 2749), (2768, 2768), (2784, 2784), (2785, 2785), (2790, 2799), (2809, 2809),
  (2821, 2828), (2831, 2831), (2832, 2832), (2835, 2856), (2858, 2864), (2866, 2866), (2867, 2867), (2869, 2873),
  (2877, 2877), (2908, 2908), (2909, 2909), (2911, 2913), (2918, 2927), (2929, 2935), (2947, 2947), (2949, 2954),
  (2958, 2960), (2962, 2965), (2969, 2969), (2970, 2970), (2972, 2972), (2974, 2974), (2975, 2975), (2979, 2979),
  (2980, 2980), (2984, 2986), (2990, 3001), (3024, 3024), (3046, 3058), (3077, 3084), (3086, 3088), (3090, 3112),
  (3114, 3129), (3133, 3133), (3160, 3162), (3168, 3168), (3169, 3169), (3174, 3183), (3192, 3198), (3200, 3200),
  (3205, 3212), (3214, 3216), (3218, 3240), (3242, 3251), (3253, 3257), (3261, 3261), (3294, 3294), (3296, 3296),
  (3297, 3297), (3302, 3311), (3313, 3313), (3314, 3314), (3333, 3340), (3342, 3344), (3346, 3386), (3389, 3389),
  (3406, 3406), (3412, 3414), (3416, 3425), (3430, 3448), (3450, 3455), (3461, 3478), (3482, 3505), (3507, 3515),
  (3517, 3517), (3520, 3526), (3558, 3567), (3585, 3632), (3634, 3634), (3635, 3635), (3648, 3654), (3664, 3673),
  (3713, 3713), (3714, 3714), (3716, 3716), (3719, 3719), (3720, 3720), (3722, 3722), (3725, 3725), (3732, 3735),
  (3737, 3743), (3745, 3747), (3749, 3749), (3751, 3751), (3754, 3754), (3755, 3755), (3757, 3760), (3762, 3762),
  (3763, 3763), (3773, 3773), (3776, 3780), (3782, 3782), (3792, 3801), (3804, 3807), (3840, 3840), (3872, 3891),
  (3904, 3911), (3913, 3948), (3976, 3980), (4096, 4138), (4159, 4169), (4176, 4181), (4186, 4189), (4193, 4193),
  (4197, 4197), (4198, 4198), (4206, 4208), (4213, 4225), (4238, 4238), (4240, 4249), (4256, 4293), (4295, 4295),
  (4301, 4301), (4304, 4346), (4348, 4680), (4682, 4685), (4688, 4694), (4696, 4696), (4698, 4701), (4704, 4744),
  (4746, 4749), (4752, 4784), (4786, 4789), (4792, 4798), (4800, 4800), (4802, 4805), (4808, 4822), (4824, 4880),
  (4882, 4885), (4888, 4954), (4969, 4988), (4992, 5007), (5024, 5109), (5112, 5117), (5121, 5740), (5743, 5759),
  (5761, 5786), (5792, 5866), (5870, 5880), (5888, 5900), (5902, 5905), (5920, 5937), (5952, 5969), (5984, 5996),
  (5998, 6000), (6016, 6067), (6103, 6103), (6108, 6108), (6112, 6121), (6128, 6137), (6160, 6169), (6176, 6263),
  (6272, 6276), (6279, 6312), (6314, 6314), (6320, 6389), (6400, 6430), (6470, 6509), (6512, 6516), (6528, 6571),
  (6576, 6601), (6608, 6618), (6656, 6678), (6688, 6740), (6784, 6793), (6800, 6809), (6823, 6823), (6917, 6963),
  (6981, 6987), (6992, 7001), (7043, 7072), (7086, 7141), (7168, 7203), (7232, 7241), (7245, 7293), (7296, 7304),
  (7401, 7404), (7406, 7409), (7413, 7413), (7414, 7414), (7424, 7615), (7680, 7957), (7960, 7965), (7968, 8005),
  (8008, 8013), (8016, 8023), (8025, 8025), (8027, 8027), (8029, 8029), (8031, 8061), (8064, 8116), (8118, 8124),
  (8126, 8126), (8130, 8132), (8134, 8140), (8144, 8147), (8150, 8155), (8160, 8172), (8178, 8180), (8182, 8188),
  (8304, 8304), (8305, 8305), (8308, 8313), (8319, 8329), (8336, 8348), (8450, 8450), (8455, 8455), (8458, 8467),
  (8469, 8469), (8473, 8477), (8484, 8484), (8486, 8486), (8488, 8488), (8490, 8493), (8495, 8505), (8508, 8511),
  (8517, 8521), (8526, 8526), (8528, 8585), (9312, 9371), (9450, 9471), (10102, 10131), (11264, 11310), (11312, 11358),
  (11360, 11492), (11499, 11502), (11506, 11506), (11507, 11507), (11517, 11517), (11520, 11557), (11559, 11559), (11565, 11565),
  (11568, 11623), (11631, 11631), (11648, 11670), (11680, 11686), (11688, 11694), (11696, 11702), (11704, 11710), (11712, 11718),
  (11720, 11726), (11728, 11734), (11736, 11742), (11823, 11823), (12293, 12295), (12321, 12329), (12337, 12341), (12344, 12348),
  (12353, 12438), (12445, 12447), (12449, 12538), (12540, 12543), (12549, 12590), (12593, 12686), (12690, 12693), (12704, 12730),
  (12784, 12799), (12832, 12841), (12872, 12879), (12881, 12895), (12928, 12937), (12977, 12991), (13312, 19893), (19968, 40938),
  (40960, 42124), (42192, 42237), (42240, 42508), (42512, 42539), (42560, 42606), (42623, 42653), (42656, 42735), (42775, 42783),
  (42786, 42888), (42891, 42926), (42928, 42935), (42999, 43009), (43011, 43013), (43015, 43018), (43020, 43042), (43056, 43061),
  (43072, 43123), (43138, 43187), (43216, 43225), (43250, 43255), (43259, 43259), (43261, 43261), (43264, 43301), (43312, 43334),
  (43360, 43388), (43396, 43442), (43471, 43481), (43488, 43492), (43494, 43518), (43520, 43560), (43584, 43586), (43588, 43595),
  (43600, 43609), (43616, 43638), (43642, 43642), (43646, 43695), (43697, 43697), (43701, 43701), (43702, 43702), (43705, 43709),
  (43712, 43712), (43714, 43714), (43739, 43741), (43744, 43754), (43762, 43764), (43777, 43782), (43785, 43790), (43793, 43798),
  (43808, 43814), (43816, 43822), (43824, 43866), (43868, 43877), (43888, 44002), (44016, 44025), (44032, 55203), (55216, 55238),
  (55243, 55291), (63744, 64109), (64112, 64217), (64256, 64262), (64275, 64279), (64285, 64285), (64287, 64296), (64298, 64310),
  (64312, 64316), (64318, 64318), (64320, 64320), (64321, 64321), (64323, 64323), (64324, 64324), (64326, 64433), (64467, 64829),
  (64848, 64911), (64914, 64967), (65008, 65019), (65136, 65140), (65142, 65276), (65296, 65305), (65313, 65338), (65345, 65370),
  (65382, 65470), (65474, 65479), (65482, 65487), (65490, 65495), (65498, 65500)]

def attribsRestSurr : List ((Nat × Nat) × Nat × Nat) := [
  ((55296, 55296), 56320, 56331), ((55296, 55296), 56333, 56358), ((55296, 55296), 56360, 56378), ((55296, 55296), 56380, 56380),
  ((55296, 55296), 56381, 56381), ((55296, 55296), 56383, 56397), ((55296, 55296), 56400, 56413), ((55296, 55296), 56448, 56570),
  ((55296, 55296), 56583, 56627), ((55296, 55296), 56640, 56696), ((55296, 55296), 56714, 56714), ((55296, 55296), 56715, 56715),
  ((55296, 55296), 56960, 56988), ((55296, 55296), 56992, 57040), ((55296, 55296), 57057, 57083), ((55296, 55296), 57088, 57123),
  ((55296, 55296), 57133, 57162), ((55296, 55296), 57168, 57205), ((55296, 55296), 57216, 57245), ((55296, 55296), 57248, 57283),
  ((55296, 55296), 57288, 57295), ((55296, 55296), 57297, 57301), ((55297, 55297), 56320, 56477), ((55297, 55297), 56480, 56489),
  ((55297, 55297), 56496, 56531), ((55297, 55297), 56536, 56571), ((55297, 55297), 56576, 56615), ((55297, 55297), 56624, 56675),
  ((55297, 55297), 56832, 57142), ((55297, 55297), 57152, 57173), ((55297, 55297), 57184, 57191), ((55298, 55298), 56320, 56325),
  ((55298, 55298), 56328, 56328), ((55298, 55298), 56330, 56373), ((55298, 55298), 56375, 56375), ((55298, 55298), 56376, 56376),
  ((55298, 55298), 56380, 56380), ((55298, 55298), 56383, 56405), ((55298, 55298), 56408, 56438), ((55298, 55298), 56441, 56478),
  ((55298, 55298), 56487, 56495), ((55298, 55298), 56544, 56562), ((55298, 55298), 56564, 56564), ((55298, 55298), 56565, 56565),
  ((55298, 55298), 56571, 56603), ((55298, 55298), 56608, 56633), ((55298, 55298), 56704, 56759), ((55298, 55298), 56764, 56783),
  ((55298, 55298), 56786, 56832), ((55298, 55298), 56848, 56851), ((55298, 55298), 56853, 56855), ((55298, 55298), 56857, 56883),
  ((55298, 55298), 56896, 56903), ((55298, 55298), 56928, 56958), ((55298, 55298), 56960, 56991), ((55298, 55298), 57024, 57031),
  ((55298, 55298), 57033, 57060), ((55298, 55298), 57067, 57071), ((55298, 55298), 57088, 57141), ((55298, 55298), 57152, 57173),
  ((55298, 55298), 57176, 57202), ((55298, 55298), 57208, 57233), ((55298, 55298), 57257, 57263), ((55299, 55299), 56320, 56392),
  ((55299, 55299), 56448, 56498), ((55299, 55299), 56512, 56562), ((55299, 55299), 56570, 56575), ((55299, 55299), 56928, 56958),
  ((55300, 55300), 56323, 56375), ((55300, 55300), 56402, 56431), ((55300, 55300), 56451, 56495), ((55300, 55300), 56528, 56552),
  ((55300, 55300), 56560, 56569), ((55300, 55300), 56579, 56614), ((55300, 55300), 56630, 56639), ((55300, 55300), 56656, 56690),
  ((55300, 55300), 56694, 56694), ((55300, 55300), 56707, 56754), ((55300, 55300), 56769, 56772), ((55300, 55300), 56784, 56794),
  ((55300, 55300), 56796, 56796), ((55300, 55300), 56801, 56820), ((55300, 55300), 56832, 56849), ((55300, 55300), 56851, 56875),
  ((55300, 55300), 56960, 56966), ((55300, 55300), 56968, 56968), ((55300, 55300), 56970, 56973), ((55300, 55300), 56975, 56989),
  ((55300, 55300), 56991, 57000), ((55300, 55300), 57008, 57054), ((55300, 55300), 57072, 57081), ((55300, 55300), 57093, 57100),
  ((55300, 55300), 57103, 57103), ((55300, 55300), 57104, 57104), ((55300, 55300), 57107, 57128), ((55300, 55300), 57130, 57136),
  ((55300, 55300), 57138, 57138), ((55300, 55300), 57139, 57139), ((55300, 55300), 57141, 57145), ((55300, 55300), 57149, 57149),
  ((55300, 55300), 57168, 57168), ((55300, 55300), 57181, 57185), ((55301, 55301), 56320, 56372), ((55301, 55301), 56391, 56394),
  ((55301, 55301), 56400, 56409), ((55301, 55301), 56448, 56495), ((55301, 55301), 56516, 56516), ((55301, 55301), 56517, 56517),
  ((55301, 55301), 56519, 56519), ((55301, 55301), 56528, 56537), ((55301, 55301), 56704, 56750), ((55301, 55301), 56792, 56795),
  ((55301, 55301), 56832, 56879), ((55301, 55301), 56900, 56900), ((55301, 55301), 56912, 56921), ((55301, 55301), 56960, 57002),
  ((55301, 55301), 57024, 57033), ((55301, 55301), 57088, 57113), ((55301, 55301), 57136, 57147), ((55302, 55302), 56480, 56562),
  ((55302, 55302), 56575, 56575), ((55302, 55302), 56832, 56832), ((55302, 55302), 56843, 56882), ((55302, 55302), 56890, 56890),
  ((55302, 55302), 56912, 56912), ((55302, 55302), 56924, 56963), ((55302, 55302), 56966, 56969), ((55302, 55302), 57024, 57080),
  ((55303, 55303), 56320, 56328), ((55303, 55303), 56330, 56366), ((55303, 55303), 56384, 56384), ((55303, 55303), 56400, 56428),
  ((55303, 55303), 56434, 56463), ((55303, 55303), 56576, 56582), ((55303, 55303), 56584, 56584), ((55303, 55303), 56585, 56585),
  ((55303, 55303), 56587, 56624), ((55303, 55303), 56646, 56646), ((55303, 55303), 56656, 56665), ((55304, 55304), 56320, 57241),
  ((55305, 55305), 56320, 56430), ((55305, 55305), 56448, 56643), ((55308, 55308), 56320, 57343), ((55324, 55328), 56320, 57343),
  ((55360, 55400), 56320, 57343), ((55402, 55404), 56320, 57343), ((55407, 55410), 56320, 57343), ((55412, 55417), 56320, 57343),
  ((55309, 55309), 56320, 56366), ((55313, 55313), 56320, 56902), ((55322, 55322), 56320, 56888), ((55322, 55322), 56896, 56926),
  ((55322, 55322), 56928, 56937), ((55322, 55322), 57040, 57069), ((55322, 55322), 57088, 57135), ((55322, 55322), 57152, 57155),
  ((55322, 55322), 57168, 57177), ((55322, 55322), 57179, 57185), ((55322, 55322), 57187, 57207), ((55322, 55322), 57213, 57231),
  ((55323, 55323), 57088, 57156), ((55323, 55323), 57168, 57168), ((55323, 55323), 57235, 57247), ((55323, 55323), 57312, 57312),
  ((55323, 55323), 57313, 57313), ((55329, 55329), 56320, 57324), ((55330, 55330), 56320, 57074), ((55340, 55340), 56320, 56606),
  ((55340, 55340), 56688, 57083), ((55343, 55343), 56320, 56426), ((55343, 55343), 56432, 56444), ((55343, 55343), 56448, 56456),
  ((55343, 55343), 56464, 56473), ((55348, 55348), 57184, 57201), ((55349, 55349), 56320, 56404), ((55349, 55349), 56406, 56476),
  ((55349, 55349), 56478, 56478), ((55349, 55349), 56479, 56479), ((55349, 55349), 56482, 56482), ((55349, 55349), 56485, 56485),
  ((55349, 55349), 56486, 56486), ((55349, 55349), 56489, 56492), ((55349, 55349), 56494, 56505), ((55349, 55349), 56507, 56507),
  ((55349, 55349), 56509, 56515), ((55349, 55349), 56517, 56581), ((55349, 55349), 56583, 56586), ((55349, 55349), 56589, 56596),
  ((55349, 55349), 56598, 56604), ((55349, 55349), 56606, 56633), ((55349, 55349), 56635, 56638), ((55349, 55349), 56640, 56644),
  ((55349, 55349), 56646, 56646), ((55349, 55349), 56650, 56656), ((55349, 55349), 56658, 56997), ((55349, 55349), 57000, 57024),
  ((55349, 55349), 57026, 57050), ((55349, 55349), 57052, 57082), ((55349, 55349), 57084, 57108), ((55349, 55349), 57110, 57140),
  ((55349, 55349), 57142, 57166), ((55349, 55349), 57168, 57198), ((55349, 55349), 57200, 57224), ((55349, 55349), 57226, 57256),
  ((55349, 55349), 57258, 57282), ((55349, 55349), 57284, 57291), ((55349, 55349), 57294, 57343), ((55354, 55354), 56320, 56516),
  ((55354, 55354), 56519, 56527), ((55354, 55354), 56576, 56643), ((55354, 55354), 56656, 56665), ((55355, 55355), 56832, 56835),
  ((55355, 55355), 56837, 56863), ((55355, 55355), 56865, 56865), ((55355, 55355), 56866, 56866), ((55355, 55355), 56868, 56868),
  ((55355, 55355), 56871, 56871), ((55355, 55355), 56873, 56882), ((55355, 55355), 56884, 56887), ((55355, 55355), 56889, 56889),
  ((55355, 55355), 56891, 56891), ((55355, 55355), 56898, 56898), ((55355, 55355), 56903, 56903), ((55355, 55355), 56905, 56905),
  ((55355, 55355), 56907, 56907), ((55355, 55355), 56909, 56911), ((55355, 55355), 56913, 56913), ((55355, 55355), 56914, 56914),
  ((55355, 55355), 56916, 56916), ((55355, 55355), 56919, 56919), ((55355, 55355), 56921, 56921), ((55355, 55355), 56923, 56923),
  ((55355, 55355), 56925, 56925), ((55355, 55355), 56927, 56927), ((55355, 55355), 56929, 56929), ((55355, 55355), 56930, 56930),
  ((55355, 55355), 56932, 56932), ((55355, 55355), 56935, 56938), ((55355, 55355), 56940, 56946), ((55355, 55355), 56948, 56951),
  ((55355, 55355), 56953, 56956), ((55355, 55355), 56958, 56958), ((55355, 55355), 56960, 56969), ((55355, 55355), 56971, 56987),
  ((55355, 55355), 56993, 56995), ((55355, 55355), 56997, 57001), ((55355, 55355), 57003, 57019), ((55356, 55356), 56576, 56588),
  ((55401, 55401), 56320, 57046), ((55401, 55401), 57088, 57343), ((55405, 55405), 56320, 57140), ((55405, 55405), 57152, 57343),
  ((55406, 55406), 56320, 56349), ((55406, 55406), 56352, 57343), ((55411, 55411), 56320, 56993), ((55411, 55411), 57008, 57343),
  ((55418, 55418), 56320, 57312), ((55422, 55422), 56320, 56861)]

/-- Does the code-unit pair `(u, v)` fall in one of the listed
lead/trail surrogate pair ranges? -/
def surrPairMatch (surr : List ((Nat × Nat) × Nat × Nat)) (u v : Nat) : Bool :=
  surr.any fun p => p.1.1 ≤ u ∧ u ≤ p.1.2 ∧ p.2.1 ≤ v ∧ v ≤ p.2.2

/-- The `(?:...)*$` tail of `getAttribsRegex`: a sequence of elements,
each a BMP unit of the rest-class or a surrogate pair of the rest pair
ranges. -/
def matchAttribRest : JStr → Bool
  | [] => true
  | u :: rest =>
    if inRanges attribsRestBMP u then matchAttribRest rest
    else
      match rest with
      | v :: rest2 => if surrPairMatch attribsRestSurr u v then matchAttribRest rest2 else false
      | [] => false

/-- The `getAttribsRegex.test(k)`: one element of the first class followed
by the rest pattern. -/
def getAttribsRegexTest (k : JStr) : Bool :=
  match k with
  | [] => false
  | u :: rest =>
    if inRanges attribsFirstBMP u then matchAttribRest rest
    else
      match rest with
      | v :: rest2 =>
        if surrPairMatch attribsFirstSurr u v then matchAttribRest rest2 else false
      | [] => false

/-! ### `src/lib/TokenSanitizer.js`: `SanitizerConstants` -/

/-- The `SanitizerConstants.globalConfig` (deep-frozen). -/
def allowRdfaAttrs : Bool := true

def allowMicrodataAttrs : Bool := true

def html5Mode : Bool := true

/-- The `SanitizerConstants.htmlEntityAliases`. -/
def htmlEntityAliases : List (JStr × JStr) := [
  (jstr "רלמ", jstr "rlm"),
  (jstr "رلم", jstr "rlm")]

/-- The `SanitizerConstants.htmlEntities`: the HTML 4.01 named entity
table (plus `apos`), transcribed entry-by-entry from the source. -/
def htmlEntities : List (JStr × Nat) := [
  (jstr "Aacute", 193),
  (jstr "aacute", 225),
  (jstr "Acirc", 194),
  (jstr "acirc", 226),
  (jstr "acute", 180),
  (jstr "AElig", 198),
  (jstr "aelig", 230),
  (jstr "Agrave", 192),
  (jstr "agrave", 224),
  (jstr "alefsym", 8501),
  (jstr "Alpha", 913),
  (jstr "alpha", 945),
  (jstr "amp", 38),
  (jstr "and", 8743),
  (jstr "ang", 8736),
  (jstr "apos", 39),
  (jstr "Aring", 197),
  (jstr "aring", 229),
  (jstr "asymp", 8776),
  (jstr "Atilde", 195),
  (jstr "atilde", 227),
  (jstr "Auml", 196),
  (jstr "auml", 228),
  (jstr "bdquo", 8222),
  (jstr "Beta", 914),
  (jstr "beta", 946),
  (jstr "brvbar", 166),
  (jstr "bull", 8226),
  (jstr "cap", 8745),
  (jstr "Ccedil", 199),
  (jstr "ccedil", 231),
  (jstr "cedil", 184),
  (jstr "cent", 162),
  (jstr "Chi", 935),
  (jstr "chi", 967),
  (jstr "circ", 710),
  (jstr "clubs", 9827),
  (jstr "cong", 8773),
  (jstr "copy", 169),
  (jstr "crarr", 8629),
  (jstr "cup", 8746),
  (jstr "curren", 164),
  (jstr "dagger", 8224),
  (jstr "Dagger", 8225),
  (jstr "darr", 8595),
  (jstr "dArr", 8659),
  (jstr "deg", 176),
  (jstr "Delta", 916),
  (jstr "delta", 948),
  (jstr "diams", 9830),
  (jstr "divide", 247),
  (jstr "Eacute", 201),
  (jstr "eacute", 233),
  (jstr "Ecirc", 202),
  (jstr "ecirc", 234),
  (jstr "Egrave", 200),
  (jstr "egrave", 232),
  (jstr "empty", 8709),
  (jstr "emsp", 8195),
  (jstr "ensp", 8194),
  (jstr "Epsilon", 917),
  (jstr "epsilon", 949),
  (jstr "equiv", 8801),
  (jstr "Eta", 919),
  (jstr "eta", 951),
  (jstr "ETH", 208),
  (jstr "eth", 240),
  (jstr "Euml", 203),
  (jstr "euml", 235),
  (jstr "euro", 8364),
  (jstr "exist", 8707),
  (jstr "fnof", 402),
  (jstr "forall", 8704),
  (jstr "frac12", 189),
  (jstr "frac14", 188),
  (jstr "frac34", 190),
  (jstr "frasl", 8260),
  (jstr "Gamma", 915),
  (jstr "gamma", 947),
  (jstr "ge", 8805),
  (jstr "gt", 62),
  (jstr "harr", 8596),
  (jstr "hArr", 8660),
  (jstr "hearts", 9829),
  (jstr "hellip", 8230),
  (jstr "Iacute", 205),
  (jstr "iacute", 237),
  (jstr "Icirc", 206),
  (jstr "icirc", 238),
  (jstr "iexcl", 161),
  (jstr "Igrave", 204),
  (jstr "igrave", 236),
  (jstr "image", 8465),
  (jstr "infin", 8734),
  (jstr "int", 8747),
  (jstr "Iota", 921),
  (jstr "iota", 953),
  (jstr "iquest", 191),
  (jstr "isin", 8712),
  (jstr "Iuml", 207),
  (jstr "iuml", 239),
  (jstr "Kappa", 922),
  (jstr "kappa", 954),
  (jstr "Lambda", 923),
  (jstr "lambda", 955),
  (jstr "lang", 9001),
  (jstr "laquo", 171),
  (jstr "larr", 8592),
  (jstr "lArr", 8656),
  (jstr "lceil", 8968),
  (jstr "ldquo", 8220),
  (jstr "le", 8804),
  (jstr "lfloor", 8970),
  (jstr "lowast", 8727),
  (jstr "loz", 9674),
  (jstr "lrm", 8206),
  (jstr "lsaquo", 8249),
  (jstr "lsquo", 8216),
  (jstr "lt", 60),
  (jstr "macr", 175),
  (jstr "mdash", 8212),
  (jstr "micro", 181),
  (jstr "middot", 183),
  (jstr "minus", 8722),
  (jstr "Mu", 924),
  (jstr "mu", 956),
  (jstr "nabla", 8711),
  (jstr "nbsp", 160),
  (jstr "ndash", 8211),
  (jstr "ne", 8800),
  (jstr "ni", 8715),
  (jstr "not", 172),
  (jstr "notin", 8713),
  (jstr "nsub", 8836),
  (jstr "Ntilde", 209),
  (jstr "ntilde", 241),
  (jstr "Nu", 925),
  (jstr "nu", 957),
  (jstr "Oacute", 211),
  (jstr "oacute", 243),
  (jstr "Ocirc", 212),
  (jstr "ocirc", 244),
  (jstr "OElig", 338),
  (jstr "oelig", 339),
  (jstr "Ograve", 210),
  (jstr "ograve", 242),
  (jstr "oline", 8254),
  (jstr "Omega", 937),
  (jstr "omega", 969),
  (jstr "Omicron", 927),
  (jstr "omicron", 959),
  (jstr "oplus", 8853),
  (jstr "or", 8744),
  (jstr "ordf", 170),
  (jstr "ordm", 186),
  (jstr "Oslash", 216),
  (jstr "oslash", 248),
  (jstr "Otilde", 213),
  (jstr "otilde", 245),
  (jstr "otimes", 8855),
  (jstr "Ouml", 214),
  (jstr "ouml", 246),
  (jstr "para", 182),
  (jstr "part", 8706),
  (jstr "permil", 8240),
  (jstr "perp", 8869),
  (jstr "Phi", 934),
  (jstr "phi", 966),
  (jstr "Pi", 928),
  (jstr "pi", 960),
  (jstr "piv", 982),
  (jstr "plusmn", 177),
  (jstr "pound", 163),
  (jstr "prime", 8242),
  (jstr "Prime", 8243),
  (jstr "prod", 8719),
  (jstr "prop", 8733),
  (jstr "Psi", 936),
  (jstr "psi", 968),
  (jstr "quot", 34),
  (jstr "radic", 8730),
  (jstr "rang", 9002),
  (jstr "raquo", 187),
  (jstr "rarr", 8594),
  (jstr "rArr", 8658),
  (jstr "rceil", 8969),
  (jstr "rdquo", 8221),
  (jstr "real", 8476),
  (jstr "reg", 174),
  (jstr "rfloor", 8971),
  (jstr "Rho", 929),
  (jstr "rho", 961),
  (jstr "rlm", 8207),
  (jstr "rsaquo", 8250),
  (jstr "rsquo", 8217),
  (jstr "sbquo", 8218),
  (jstr "Scaron", 352),
  (jstr "scaron", 353),
  (jstr "sdot", 8901),
  (jstr "sect", 167),
  (jstr "shy", 173),
  (jstr "Sigma", 931),
  (jstr "sigma", 963),
  (jstr "sigmaf", 962),
  (jstr "sim", 8764),
  (jstr "spades", 9824),
  (jstr "sub", 8834),
  (jstr "sube", 8838),
  (jstr "sum", 8721),
  (jstr "sup", 8835),
  (jstr "sup1", 185),
  (jstr "sup2", 178),
  (jstr "sup3", 179),
  (jstr "supe", 8839),
  (jstr "szlig", 223),
  (jstr "Tau", 932),
  (jstr "tau", 964),
  (jstr "there4", 8756),
  (jstr "Theta", 920),
  (jstr "theta", 952),
  (jstr "thetasym", 977),
  (jstr "thinsp", 8201),
  (jstr "THORN", 222),
  (jstr "thorn", 254),
  (jstr "tilde", 732),
  (jstr "times", 215),
  (jstr "trade", 8482),
  (jstr "Uacute", 218),
  (jstr "uacute", 250),
  (jstr "uarr", 8593),
  (jstr "uArr", 8657),
  (jstr "Ucirc", 219),
  (jstr "ucirc", 251),
  (jstr "Ugrave", 217),
  (jstr "ugrave", 249),
  (jstr "uml", 168),
  (jstr "upsih", 978),
  (jstr "Upsilon", 933),
  (jstr "upsilon", 965),
  (jstr "Uuml", 220),
  (jstr "uuml", 252),
  (jstr "weierp", 8472),
  (jstr "Xi", 926),
  (jstr "xi", 958),
  (jstr "Yacute", 221),
  (jstr "yacute", 253),
  (jstr "yen", 165),
  (jstr "Yuml", 376),
  (jstr "yuml", 255),
  (jstr "Zeta", 918),
  (jstr "zeta", 950),
  (jstr "zwj", 8205),
  (jstr "zwnj", 8204)]

/-- The `SanitizerConstants.UTF8_REPLACEMENT`: the literal three-unit
string '\xef\xbf\xbd'. -/
def UTF8_REPLACEMENT : JStr := [0xEF, 0xBF, 0xBD]

/-- The `SanitizerConstants.noEndTagSet`. -/
def noEndTagSet : List JStr := [jstr "br"]

/-! ### Character-reference codec -/

/-- The name class `[A-Za-z0-9\x80-\xff]` of `CHAR_REFS_RE_G`. -/
def isEntityNameUnit (u : Nat) : Bool :=
  (48 ≤ u ∧ u ≤ 57) ∨ (65 ≤ u ∧ u ≤ 90) ∨ (97 ≤ u ∧ u ≤ 122) ∨ (0x80 ≤ u ∧ u ≤ 0xFF)

def isDigitUnit (u : Nat) : Bool := 48 ≤ u ∧ u ≤ 57

def isHexDigitUnit (u : Nat) : Bool :=
  (48 ≤ u ∧ u ≤ 57) ∨ (65 ≤ u ∧ u ≤ 70) ∨ (97 ≤ u ∧ u ≤ 102)

/-- The `parseInt(ds, 10)` on a digit run. -/
def decDigitsVal (ds : JStr) : Nat := ds.foldl (fun a u => a * 10 + (u - 48)) 0

/-- The `parseInt(ds, 16)` on a hex-digit run. -/
def hexDigitsVal (ds : JStr) : Nat :=
  ds.foldl (fun a u => a * 16 + (if u ≤ 57 then u - 48 else if u ≤ 70 then u - 55 else u - 87)) 0

/-- The `TokenSanitizer.decodeEntity`: alias resolution, the named entity
table, otherwise the `&name;` pseudo-entity.  Every table value is a BMP
code point, so `Util.codepointToUtf8` cannot raise here. -/
def decodeEntity (name : JStr) : JStr :=
  let name := match assocFind htmlEntityAliases name with
    | some al => al
    | none => name
  match assocFind htmlEntities name with
  | some e => if e = 0 then jstr "&" ++ name ++ jstr ";" else fromCodePointUnits e
  | none => jstr "&" ++ name ++ jstr ";"

/-- The `TokenSanitizer.decodeChar`: the character when `validateCodepoint`
accepts (in which case `String.fromCodePoint` cannot raise), else the
fixed `UTF8_REPLACEMENT` byte sequence. -/
def decodeChar (cp : Nat) : JStr :=
  if validateCodepoint cp then fromCodePointUnits cp else UTF8_REPLACEMENT

/-- One step of the `CHAR_REFS_RE_G` global scan: called at a position
whose unit is `&` with `rest` the units after it; returns the
replacement together with the input remaining after the match.  The four
regex alternatives are tried in source order; each quantified class
excludes its terminator, so each run is the maximal one. -/
def matchCharRef (rest : JStr) : JStr × JStr :=
  let nameRun := rest.takeWhile isEntityNameUnit
  if nameRun ≠ [] ∧ (rest.drop nameRun.length).head? = some 59 then
    (decodeEntity nameRun, rest.drop (nameRun.length + 1))
  else
    match rest with
    | 35 :: r2 =>
      let digRun := r2.takeWhile isDigitUnit
      if digRun ≠ [] ∧ (r2.drop digRun.length).head? = some 59 then
        (decodeChar (decDigitsVal digRun), r2.drop (digRun.length + 1))
      else
        match r2 with
        | x :: r3 =>
          if x = 120 ∨ x = 88 then
            let hexRun := r3.takeWhile isHexDigitUnit
            if hexRun ≠ [] ∧ (r3.drop hexRun.length).head? = some 59 then
              (decodeChar (hexDigitsVal hexRun), r3.drop (hexRun.length + 1))
            else ([38], rest)
          else ([38], rest)
        | [] => ([38], rest)
    | _ => ([38], rest)

/-- Fuel-driven scanner for `decodeCharReferences`; every step consumes
at least one unit, so `fuel = length` suffices. -/
def decodeCharRefsGo : Nat → JStr → JStr
  | 0, s => s
  | _ + 1, [] => []
  | fuel + 1, u :: rest =>
    if u = 38 then
      let m := matchCharRef rest
      m.1 ++ decodeCharRefsGo fuel m.2
    else
      u :: decodeCharRefsGo fuel rest

/-- The `TokenSanitizer.decodeCharReferences`. -/
def decodeCharReferences (text : JStr) : JStr := decodeCharRefsGo text.length text

/-! ### CSS normalizer -/

/-- The optional-whitespace class `[\x20\t\r\n\f]` of `cssDecodeRE`. -/
def isCssSpaceUnit (u : Nat) : Bool := u = 0x20 ∨ u = 9 ∨ u = 13 ∨ u = 10 ∨ u = 12

/-- Lowercase hexadecimal rendering of a number
(`Number.prototype.toString(16)`). -/
def natToHexLower (n : Nat) : JStr :=
  (Nat.toDigits 16 n).map Char.toNat

/-- The re-escape emitted by `cssDecodeCallback` when the decoded
character is `\n`, `"`, `'` or `\`. -/
def cssReEscape (u : Nat) : JStr := 92 :: natToHexLower u ++ [32]

/-- Fuel-driven scanner for the `cssDecodeRE` global replacement.  At a
backslash the four alternatives are tried in source order: line
continuation, 1–6 hex digits plus one optional whitespace (this decode
can raise `RangeError` above 0x10FFFF), any non-line-terminator
character, or end of string.  When none applies (a backslash before
U+2028/U+2029) the regex fails at this position and the scan moves on by
one unit. -/
def cssDecodeGo : Nat → JStr → Except JsError JStr
  | 0, s => .ok s
  | _ + 1, [] => .ok []
  | fuel + 1, u :: rest =>
    if u = 92 then
      match rest with
      | 10 :: r2 => cssDecodeGo fuel r2
      | 13 :: 10 :: r2 => cssDecodeGo fuel r2
      | 13 :: r2 => cssDecodeGo fuel r2
      | 12 :: r2 => cssDecodeGo fuel r2
      | _ =>
        let hexRun := (rest.takeWhile isHexDigitUnit).take 6
        if hexRun ≠ [] then do
          let afterHex := rest.drop hexRun.length
          let afterSpace :=
            match afterHex.head? with
            | some w => if isCssSpaceUnit w then afterHex.drop 1 else afterHex
            | none => afterHex
          let cp := hexDigitsVal hexRun
          let c ← codepointToUtf8 cp
          let out := if cp = 10 ∨ cp = 34 ∨ cp = 39 ∨ cp = 92 then cssReEscape cp else c
          let t ← cssDecodeGo fuel afterSpace
          .ok (out ++ t)
        else
          match rest with
          | c :: r2 =>
            if ¬ isLineTerm c then do
              let out := if c = 34 ∨ c = 39 ∨ c = 92 then cssReEscape c else [c]
              let t ← cssDecodeGo fuel r2
              .ok (out ++ t)
            else do
              let t ← cssDecodeGo fuel rest
              .ok (u :: t)
          | [] => .ok (cssReEscape 92)
    else do
      let t ← cssDecodeGo fuel rest
      .ok (u :: t)

/-- The `cssDecodeRE` replacement pass of `normalizeCss`. -/
def cssDecode (text : JStr) : Except JsError JStr := cssDecodeGo text.length text

/-- The fullwidth fold `/[＀-￯]/g` of `normalizeCss`: every
unit in the block except U+FF3C is shifted down by 65248. -/
def fullwidthFold (u : Nat) : Nat :=
  if 0xFF00 ≤ u ∧ u ≤ 0xFFEF then (if u = 0xFF3C then u else u - 65248) else u

/-- The `ieReplace` substitution
(`/ʀ|ɴ|ⁿ|ʟ|ɪ|⁽|₍/g`). -/
def ieReplaceUnit (u : Nat) : Nat :=
  if u = 0x280 then 114
  else if u = 0x274 then 110
  else if u = 0x207F then 110
  else if u = 0x29F then 108
  else if u = 0x26A then 105
  else if u = 0x207D then 40
  else if u = 0x208D then 40
  else u

/-- Lazy search for the nearest `*/` with no line terminator before it
(the `(.*?)\*\//` tail); returns the remaining input after it. -/
def findCommentEnd : JStr → Option JStr
  | 42 :: 47 :: r => some r
  | u :: r => if isLineTerm u then none else findCommentEnd r
  | [] => none

/-- Fuel-driven scanner for the comment replacement
`/\/\*(.*?)\*\//g → ' '`.  On an unterminated `/*` the regex fails at
this position and the scan moves on by one unit. -/
def stripCommentsGo : Nat → JStr → JStr
  | 0, s => s
  | _ + 1, [] => []
  | fuel + 1, u :: rest =>
    if u = 47 ∧ rest.head? = some 42 then
      match findCommentEnd (rest.drop 1) with
      | some rem => 32 :: stripCommentsGo fuel rem
      | none => u :: stripCommentsGo fuel rest
    else u :: stripCommentsGo fuel rest

/-- First match of `/q([^q\n\r\f]*)$/`: the unique quote that is
followed only by characters of the class up to the end of the string;
the quote is replaced by a space (`removeMismatchedQuoteChar`'s
replacement `' ' + arguments[1]`). -/
def mismatchReplace (q : Nat) : JStr → Option JStr
  | [] => none
  | u :: rest =>
    if u = q ∧ rest.all (fun v => ¬ (v = q ∨ v = 10 ∨ v = 13 ∨ v = 12)) then
      some (32 :: rest)
    else (mismatchReplace q rest).map (u :: ·)

/-- The `removeMismatchedQuoteChar` for the quote unit `q`. -/
def removeMismatchedQuoteChar (q : Nat) (s : JStr) : JStr :=
  if (s.filter (· = q)).length % 2 = 1 then
    match mismatchReplace q s with
    | some t => t
    | none => s
  else s

def sMarks : List Nat := [0x3031, 0x309D, 0x30FC, 0x30FD, 0xFE7C, 0xFE7D, 0xFF70]

/-- Fuel-driven scanner for `/s(?:〱|...|ｰ)/ig → 'ss'` (the
`i` flag lets the `s` also match `S`; none of the marks has a case
variant). -/
def sMarksGo : Nat → JStr → JStr
  | 0, s => s
  | _ + 1, [] => []
  | fuel + 1, u :: rest =>
    if (u = 115 ∨ u = 83) ∧ (match rest.head? with | some v => sMarks.contains v | none => false : Bool) = true then
      115 :: 115 :: sMarksGo fuel (rest.drop 1)
    else u :: sMarksGo fuel rest

/-- The `TokenSanitizer.normalizeCss`: the eight-stage pipeline. -/
def normalizeCss (text : JStr) : Except JsError JStr := do
  let text := decodeCharReferences text
  let text ← cssDecode text
  let text := text.map fullwidthFold
  let text := text.map ieReplaceUnit
  let text := stripCommentsGo text.length text
  let text := removeMismatchedQuoteChar 39 text
  let text := removeMismatchedQuoteChar 34 text
  let text :=
    match indexOfLit (jstr "/*") text with
    | some i => text.take i
    | none => text
  .ok (sMarksGo text.length text)

/-! ### `insecureRE` and `checkCss` -/

/-- Case-insensitive (ASCII) prefix test for a lowercase literal. -/
def lowerStartsWith (lit s : JStr) : Bool := jsToLower (s.take lit.length) = lit

/-- The `\s*` consumption. -/
def afterOptSpaces (s : JStr) : JStr := s.dropWhile isJsSpace

/-- The `[\s,]` class. -/
def isSpComma (u : Nat) : Bool := isJsSpace u ∨ u = 44

/-- Search for the `[\s,]+url` split inside `attr\s*\([^)]+[\s,]+url`:
some later position starts a (maximal) space/comma run followed by
`url`, with every unit before it not `)`. -/
def attrArgSearch : JStr → Bool
  | [] => false
  | u :: rest =>
    if u = 41 then false
    else
      (isSpComma u ∧ lowerStartsWith (jstr "url") ((u :: rest).dropWhile isSpComma)) ∨
      attrArgSearch rest

/-- The part of the `attr` alternative after the opening parenthesis:
`[^)]+[\s,]+url`. -/
def attrArgMatch : JStr → Bool
  | [] => false
  | u :: rest => u ≠ 41 ∧ attrArgSearch rest

/-- A `word\s*:` alternative of `insecureRE` at this position. -/
def wordColonAt (word s : JStr) : Bool :=
  lowerStartsWith word s ∧ (afterOptSpaces (s.drop word.length)).head? = some 58

/-- A `word\s*\(` alternative of `insecureRE` at this position. -/
def wordParenAt (word s : JStr) : Bool :=
  lowerStartsWith word s ∧ (afterOptSpaces (s.drop word.length)).head? = some 40

/-- Does some alternative of `insecureRE` match at this position? -/
def insecureMatchAt (s : JStr) : Bool :=
  lowerStartsWith (jstr "expression") s ∨
  wordColonAt (jstr "filter") s ∨
  wordColonAt (jstr "accelerator") s ∨
  wordColonAt (jstr "-o-link") s ∨
  wordColonAt (jstr "-o-link-source") s ∨
  wordColonAt (jstr "-o-replace") s ∨
  wordParenAt (jstr "url") s ∨
  wordParenAt (jstr "image") s ∨
  wordParenAt (jstr "image-set") s ∨
  (lowerStartsWith (jstr "attr") s ∧
    (let t := afterOptSpaces (s.drop 4)
     t.head? = some 40 ∧ attrArgMatch (t.drop 1)))

/-- The `insecureRE.test`: a match at some position. -/
def insecureRETest : JStr → Bool
  | [] => false
  | u :: rest => insecureMatchAt (u :: rest) ∨ insecureRETest rest

/-- The control-character class `[\x00-\x08\x0B\x0E-\x1F\x7F]` of
`checkCss`. -/
def isCssControlUnit (u : Nat) : Bool :=
  u ≤ 8 ∨ u = 0xB ∨ (0xE ≤ u ∧ u ≤ 0x1F) ∨ u = 0x7F

/-- The `TokenSanitizer.checkCss`. -/
def checkCss (text : JStr) : Except JsError JStr := do
  let text ← normalizeCss text
  if text.any isCssControlUnit ∨ (indexOfLit UTF8_REPLACEMENT text).isSome then
    .ok (jstr "/* invalid control char */")
  else if insecureRETest text then
    .ok (jstr "/* insecure input */")
  else
    .ok text

/-! ### Id escaper -/

/-- The `TokenSanitizer.escapeIdInternal`: `html5` and `legacy` modes, any
other mode raises (`throw new Error('Invalid mode: ' + mode)`). -/
def escapeIdInternal (id : JStr) (mode : JStr) : Except JsError JStr :=
  if mode = jstr "html5" then
    .ok (id.map (fun u => if u = 32 then 95 else u))
  else if mode = jstr "legacy" then do
    let id := id.map (fun u => if u = 32 then 95 else u)
    let id ← phpURLEncode id
    let id := replaceAllLit (jstr "%3A") (jstr ":") id
    .ok (id.map (fun u => if u = 37 then 46 else u))
  else
    .error (.jsThrow (jstr "Invalid mode: " ++ mode))

/-- The `TokenSanitizer.escapeIdForAttribute`: `fallback` selects the
`legacy` mode, the default is `html5`. -/
def escapeIdForAttribute (id : JStr) (fallback : Bool := false) : Except JsError JStr :=
  escapeIdInternal id (if fallback then jstr "legacy" else jstr "html5")

/-- The `TokenSanitizer.escapeIdForLink`. -/
def escapeIdForLink (id : JStr) : Except JsError JStr := escapeIdInternal id (jstr "html5")

/-- The `TokenSanitizer.escapeIdForExternalInterwiki`. -/
def escapeIdForExternalInterwiki (id : JStr) : Except JsError JStr :=
  escapeIdInternal id (jstr "legacy")

/-! ### URI cleaner -/

/-- The `IDN_RE_G` alternatives, each a single code unit: general
whitespace (tab and space) plus the invisible/joining characters. -/
def isIdnIgnorable (u : Nat) : Bool :=
  u = 9 ∨ u = 32 ∨ u = 0xAD ∨ u = 0x1806 ∨ u = 0x200B ∨ u = 0x2060 ∨
  u = 0xFEFF ∨ u = 0x34F ∨ u = 0x180B ∨ u = 0x180C ∨ u = 0x180D ∨
  u = 0x200C ∨ u = 0x200D ∨ (0xFE00 ≤ u ∧ u ≤ 0xFE0F)

/-- The `TokenSanitizer.stripIDNs`: `host.replace(IDN_RE_G, '')`; every
alternative is one unit, so the global replacement is a filter. -/
def stripIDNs (host : JStr) : JStr := host.filter (fun u => ¬ isIdnIgnorable u)

/-- The class `[\][<>"\x00-\x20\x7F|]` whose members `cleanUrl`
percent-encodes outside wikilink mode. -/
def badUrlUnit (u : Nat) : Bool :=
  u = 93 ∨ u = 91 ∨ u = 60 ∨ u = 62 ∨ u = 34 ∨ u ≤ 0x20 ∨ u = 0x7F ∨ u = 124

/-- The `Util.phpURLEncode` applied to the one-unit match of the class
above; the class holds only ASCII units, so `encodeURIComponent`
cannot raise here. -/
def phpURLEncodeUnit (u : Nat) : JStr :=
  match phpURLEncode [u] with
  | .ok s => s
  | .error _ => []

def isAsciiAlphaUnit (u : Nat) : Bool := (65 ≤ u ∧ u ≤ 90) ∨ (97 ≤ u ∧ u ≤ 122)

/-- The scheme `[a-zA-Z][^:/]*:`: from the second unit on, the first
`:` or `/` must be a `:`; returns the index just after it. -/
def schemeScan : JStr → Nat → Option Nat
  | [], _ => none
  | u :: rest, i =>
    if u = 58 then some (i + 1)
    else if u = 47 then none
    else schemeScan rest (i + 1)

def schemeEnd (s : JStr) : Option Nat :=
  match s with
  | u :: rest => if isAsciiAlphaUnit u then schemeScan rest 1 else none
  | [] => none

def hasSlashSlashAt (s : JStr) (i : Nat) : Bool := (s.drop i).take 2 = [47, 47]

/-- The end positions group 1 of the `cleanUrl` parse can take, in
backtracking order: scheme with `//`, scheme alone, `//` alone,
nothing. -/
def parseCandidates (s : JStr) : List Nat :=
  (match schemeEnd s with
   | some i => (if hasSlashSlashAt s i then [i + 2] else []) ++ [i]
   | none => []) ++
  (if hasSlashSlashAt s 0 then [2] else []) ++ [0]

/-- Group 3 (`\/?.*`) starting at the host end `h`: the slash there (if
any) plus everything up to the first line terminator. -/
def pathFrom (s : JStr) (h : Nat) : JStr :=
  match s.drop h with
  | [] => []
  | u :: rest => u :: rest.takeWhile (fun v => ¬ isLineTerm v)

/-- The `href.match(/^((?:[a-zA-Z][^:/]*:)?(?:\/\/)?)([^/]+)(\/?.*)/)`:
the first group-1 candidate followed by a non-`/` unit wins; the host
is the maximal run of non-`/` units after it. -/
def parseHrefBits (s : JStr) : Option (JStr × JStr × JStr) :=
  match (parseCandidates s).find? (fun e => e < s.length ∧ s.getD e 0 ≠ 47) with
  | some e =>
    let host := (s.drop e).takeWhile (fun u => u ≠ 47)
    some (s.take e, host, pathFrom s (e + host.length))
  | none => none

def isIpv6AddrUnit (u : Nat) : Bool :=
  (48 ≤ u ∧ u ≤ 57) ∨ (65 ≤ u ∧ u ≤ 70) ∨ (97 ≤ u ∧ u ≤ 102) ∨ u = 58 ∨ u = 46

/-- The IPv6 rewrite `/^%5B([0-9A-Fa-f:.]+)%5D((:\d+)?)$/ →
'[' + m1 + ']' + m2`. -/
def ipv6Rewrite (host : JStr) : JStr :=
  if startsWithLit (jstr "%5B") host then
    let t := host.drop 3
    let addr := t.takeWhile isIpv6AddrUnit
    let u := t.drop addr.length
    if addr ≠ [] ∧ startsWithLit (jstr "%5D") u then
      let port := u.drop 3
      if port = [] ∨
          (port.head? = some 58 ∧ port.drop 1 ≠ [] ∧ (port.drop 1).all isDigitUnit) then
        jstr "[" ++ addr ++ jstr "]" ++ port
      else host
    else host
  else host

/-- The `TokenSanitizer.cleanUrl`.  The caller-supplied protocol whitelist
`conf.wiki.hasValidProtocol` is the predicate parameter; `none` is the
JS `null` rejection. -/
def cleanUrl (hasValidProtocol : JStr → Bool) (href : JStr) (mode : JStr) : Option JStr :=
  let href :=
    if mode ≠ jstr "wikilink" then
      href.flatMap (fun u => if badUrlUnit u then phpURLEncodeUnit u else [u])
    else href
  match parseHrefBits href with
  | some (proto, host, path) =>
    if proto ≠ [] ∧ ¬ hasValidProtocol proto then none
    else some (proto ++ ipv6Rewrite (stripIDNs host) ++ path)
  | none => some href

/-! ### `EVIL_URI_RE`, `XMLNS_ATTRIBUTE_RE`, data-* and microdata
predicates -/

/-- The `\w` class. -/
def isWordUnit (u : Nat) : Bool :=
  (48 ≤ u ∧ u ≤ 57) ∨ (65 ≤ u ∧ u ≤ 90) ∨ (97 ≤ u ∧ u ≤ 122) ∨ u = 95

/-- The `([^\w]|$)` after a matched word. -/
def nonWordBoundary (t : JStr) : Bool :=
  match t.head? with
  | none => true
  | some u => ¬ isWordUnit u

/-- The `(javascript|vbscript)([^\w]|$)` at this position (case
insensitive). -/
def evilWordAt (s : JStr) : Bool :=
  (lowerStartsWith (jstr "javascript") s ∧ nonWordBoundary (s.drop 10)) ∨
  (lowerStartsWith (jstr "vbscript") s ∧ nonWordBoundary (s.drop 8))

/-- The `(\s|\*\/\s*)`-prefixed positions of `EVIL_URI_RE`. -/
def evilScanTail : JStr → Bool
  | [] => false
  | u :: rest =>
    (isJsSpace u ∧ evilWordAt rest) ∨
    (u = 42 ∧ rest.head? = some 47 ∧ evilWordAt ((rest.drop 1).dropWhile isJsSpace)) ∨
    evilScanTail rest

/-- The `EVIL_URI_RE.test`:
`/(^|\s|\*\/\s*)(javascript|vbscript)([^\w]|$)/i`. -/
def evilUriRETest (s : JStr) : Bool := evilWordAt s ∨ evilScanTail s

/-- The class `[:A-Z_a-z-.0-9]` of `XMLNS_ATTRIBUTE_RE`. -/
def xmlnsNameUnit (u : Nat) : Bool :=
  u = 58 ∨ (65 ≤ u ∧ u ≤ 90) ∨ u = 95 ∨ (97 ≤ u ∧ u ≤ 122) ∨ u = 45 ∨ u = 46 ∨
  (48 ≤ u ∧ u ≤ 57)

/-- The `XMLNS_ATTRIBUTE_RE.test`: `/^xmlns:[:A-Z_a-z-.0-9]+$/`. -/
def xmlnsRETest (k : JStr) : Bool :=
  startsWithLit (jstr "xmlns:") k ∧ k.drop 6 ≠ [] ∧ (k.drop 6).all xmlnsNameUnit

/-- The `/^data-(?!ooui)[^:]*$/i`. -/
def dataAttrRETest (k : JStr) : Bool :=
  lowerStartsWith (jstr "data-") k ∧ ¬ lowerStartsWith (jstr "ooui") (k.drop 5) ∧
  (k.drop 5).all (fun u => u ≠ 58)

/-- The `microData` name set (RDFa and HTML5 microdata URL-bearing
attributes). -/
def microDataAttrs : List JStr :=
  [jstr "rel", jstr "rev", jstr "about", jstr "property", jstr "resource",
   jstr "datatype", jstr "typeof",
   jstr "itemid", jstr "itemprop", jstr "itemref", jstr "itemscope", jstr "itemtype"]

/-- The `.+?(?=$|\s)` after a matched `mw:`: at least one
non-line-terminator unit, ending right before a space or the end. -/
def mwTailSearch : JStr → Bool
  | [] => false
  | u :: rest =>
    if isLineTerm u then false
    else
      match rest with
      | [] => true
      | v :: _ => isJsSpace v ∨ mwTailSearch rest

def mwMarkerAt (s : JStr) : Bool := startsWithLit (jstr "mw:") s ∧ mwTailSearch (s.drop 3)

def mwMarkerScan : JStr → Bool
  | [] => false
  | u :: rest => (isJsSpace u ∧ mwMarkerAt rest) ∨ mwMarkerScan rest

/-- The `/(?:^|\s)mw:.+?(?=$|\s)/.test`. -/
def mwMarkerRETest (s : JStr) : Bool := mwMarkerAt s ∨ mwMarkerScan s

/-- The `/^#mwt\d+$/.test`. -/
def aboutIdRETest (s : JStr) : Bool :=
  startsWithLit (jstr "#mwt") s ∧ s.drop 4 ≠ [] ∧ (s.drop 4).all isDigitUnit

/-- The `/^mw:WikiLink(\/Interwiki)?$/` applied to a shadow `rel` value
(`test(null)` coerces `null` to the string `"null"`, which never
matches; modelled as `false`). -/
def wikiLinkValTest (v : JsVal) : Bool :=
  match v with
  | .str s => s = jstr "mw:WikiLink" ∨ s = jstr "mw:WikiLink/Interwiki"
  | _ => false

/-- The `TokenSanitizer.isParsoidAttr`.  `Util.lookup` returning `null`
makes the marker test coerce `null` to `"null"`, which never matches. -/
def propertyHasMwMarker (attrs : List KV) : Bool :=
  match lookup attrs (jstr "property") with
  | .str pv => mwMarkerRETest pv
  | _ => false

def isParsoidAttr (k v : JStr) (attrs : List KV) : Bool :=
  ((k = jstr "typeof" ∨ k = jstr "property" ∨ k = jstr "rel") ∧ mwMarkerRETest v) ∨
  (k = jstr "about" ∧ aboutIdRETest v) ∨
  (k = jstr "content" ∧ propertyHasMwMarker attrs)

/-- The `(mw:\w)` lookahead of the Parsoid value-stripping regex. -/
def mwWordLookahead (s : JStr) : Bool :=
  startsWithLit (jstr "mw:") s ∧ ((s.drop 3).head?.map isWordUnit).getD false

/-- Positions ≥ 1 of `replace(/(?:^|\s)(?!mw:\w)[^\s]*/g, '')`: a
whitespace unit whose successor does not start `mw:\w` is removed
together with the following non-whitespace run. -/
def stripNonMwGo : Nat → JStr → JStr
  | 0, s => s
  | _ + 1, [] => []
  | fuel + 1, u :: rest =>
    if isJsSpace u ∧ ¬ mwWordLookahead rest then
      stripNonMwGo fuel (rest.dropWhile (fun v => ¬ isJsSpace v))
    else u :: stripNonMwGo fuel rest

/-- The `replace(/(?:^|\s)(?!mw:\w)[^\s]*/g, '')`: the `^` alternative at
position 0 (with the empty-match lastIndex bump of a global JS regex),
then the scan above. -/
def stripNonMw (s : JStr) : JStr :=
  if ¬ mwWordLookahead s then
    match s with
    | [] => []
    | u :: r =>
      if isJsSpace u then u :: stripNonMwGo r.length r
      else
        let t := (u :: r).dropWhile (fun v => ¬ isJsSpace v)
        stripNonMwGo t.length t
  else stripNonMwGo s.length s

/-! ### Token data model (`src/lib/parser.defines.js`) -/

inductive TokenType where
  | TagTk
  | EndTagTk
  | SelfclosingTagTk
deriving DecidableEq, Repr

/-- A tag-bearing token with the `dataAttribs` fields the sanitizer
touches (`stx`, `tsr`, and the shadow maps `a`/`sa`, whose presence and
absence the source distinguishes from emptiness). -/
structure Token where
  type : TokenType
  name : JStr
  attribs : List KV := []
  stx : Option JStr := none
  tsr : Option (Nat × Nat) := none
  da_a : Option (List (JStr × JsVal)) := none
  da_sa : Option (List (JStr × JsVal)) := none
deriving DecidableEq, Repr

/-- The `token.getAttribute(name)`. -/
def Token.getAttribute (t : Token) (name : JStr) : JsVal := lookup t.attribs name

/-- The `token.addAttribute(name, value)`. -/
def Token.addAttribute (t : Token) (name value : JStr) : Token :=
  { t with attribs := t.attribs ++ [⟨name, value, none, none⟩] }

/-- The `token.setShadowInfo(name, value, origValue)`. -/
def Token.setShadowInfo (t : Token) (name : JStr) (value origValue : JsVal) : Token :=
  if value ≠ origValue ∧ origValue ≠ .null then
    let t := { t with da_a := some (upsert (t.da_a.getD []) name value) }
    let t := { t with da_sa := some (t.da_sa.getD []) }
    if origValue ≠ .undef then
      { t with da_sa := some (upsert (t.da_sa.getD []) name origValue) }
    else t
  else t

/-- The `token.addNormalizedAttribute(name, value, origValue)`. -/
def Token.addNormalizedAttribute (t : Token) (name value : JStr) (origValue : JsVal) : Token :=
  (t.addAttribute name value).setShadowInfo name (.str value) origValue

/-- The result record of `getAttributeShadowInfo`. -/
structure ShadowInfo where
  value : JsVal
  modified : Bool
  fromsrc : Bool
deriving DecidableEq, Repr

/-- The `Object.keys(this.dataAttribs).length` over the modelled fields. -/
def Token.dataAttribsKeyCount (t : Token) : Nat :=
  (if t.stx = none then 0 else 1) + (if t.tsr = none then 0 else 1) +
  (if t.da_a = none then 0 else 1) + (if t.da_sa = none then 0 else 1)

/-- The `token.getAttributeShadowInfo(name)`. -/
def Token.getAttributeShadowInfo (t : Token) (name : JStr) : ShadowInfo :=
  let curVal := lookup t.attribs name
  match t.da_a with
  | none => ⟨curVal, t.dataAttribsKeyCount = 0, false⟩
  | some a =>
    match assocFind a name with
    | none => ⟨curVal, t.dataAttribsKeyCount = 0, false⟩
    | some (.undef) => ⟨curVal, t.dataAttribsKeyCount = 0, false⟩
    | some av =>
      if av ≠ curVal then ⟨curVal, true, false⟩
      else
        match t.da_sa with
        | none => ⟨curVal, false, false⟩
        | some sa =>
          match assocFind sa name with
          | none => ⟨curVal, false, false⟩
          | some sv => ⟨sv, false, true⟩

/-- The `Util.isHTMLTag` on a tag-bearing token:
`dataAttribs.stx === 'html'`. -/
def isHTMLTag (t : Token) : Bool := t.stx = some (jstr "html")

/-! ### Attribute whitelist (`computeAttrWhiteList` with the frozen
`globalConfig`) -/

def commonAttribs : List JStr :=
  [jstr "id", jstr "class", jstr "lang", jstr "dir", jstr "title", jstr "style"] ++
  [jstr "aria-describedby", jstr "aria-flowto", jstr "aria-label",
   jstr "aria-labelledby", jstr "aria-owns", jstr "role"] ++
  (if allowRdfaAttrs then
    [jstr "about", jstr "property", jstr "resource", jstr "datatype", jstr "typeof"]
   else []) ++
  (if allowMicrodataAttrs then
    [jstr "itemid", jstr "itemprop", jstr "itemref", jstr "itemscope", jstr "itemtype"]
   else [])

def blockAttribs : List JStr := commonAttribs ++ [jstr "align"]

def tablealignAttribs : List JStr := [jstr "align", jstr "valign"]

def tablecellAttribs : List JStr :=
  [jstr "abbr", jstr "axis", jstr "headers", jstr "scope", jstr "rowspan",
   jstr "colspan", jstr "nowrap", jstr "width", jstr "height", jstr "bgcolor"]

/-- The static per-tag attribute whitelist table, transcribed
tag-by-tag from `computeAttrWhiteList`. -/
def attrWhiteListTable : List (JStr × List JStr) := [
  (jstr "div", blockAttribs),
  (jstr "center", commonAttribs),
  (jstr "span", commonAttribs),
  (jstr "h1", blockAttribs),
  (jstr "h2", blockAttribs),
  (jstr "h3", blockAttribs),
  (jstr "h4", blockAttribs),
  (jstr "h5", blockAttribs),
  (jstr "h6", blockAttribs),
  (jstr "bdo", commonAttribs),
  (jstr "em", commonAttribs),
  (jstr "strong", commonAttribs),
  (jstr "cite", commonAttribs),
  (jstr "dfn", commonAttribs),
  (jstr "code", commonAttribs),
  (jstr "samp", commonAttribs),
  (jstr "kbd", commonAttribs),
  (jstr "var", commonAttribs),
  (jstr "abbr", commonAttribs),
  (jstr "blockquote", commonAttribs ++ [jstr "cite"]),
  (jstr "q", commonAttribs ++ [jstr "cite"]),
  (jstr "sub", commonAttribs),
  (jstr "sup", commonAttribs),
  (jstr "p", blockAttribs),
  (jstr "br", commonAttribs ++ [jstr "clear"]),
  (jstr "wbr", commonAttribs),
  (jstr "pre", commonAttribs ++ [jstr "width"]),
  (jstr "ins", commonAttribs ++ [jstr "cite", jstr "datetime"]),
  (jstr "del", commonAttribs ++ [jstr "cite", jstr "datetime"]),
  (jstr "ul", commonAttribs ++ [jstr "type"]),
  (jstr "ol", commonAttribs ++ [jstr "type", jstr "start", jstr "reversed"]),
  (jstr "li", commonAttribs ++ [jstr "type", jstr "value"]),
  (jstr "dl", commonAttribs),
  (jstr "dd", commonAttribs),
  (jstr "dt", commonAttribs),
  (jstr "table", commonAttribs ++
    [jstr "summary", jstr "width", jstr "border", jstr "frame", jstr "rules",
     jstr "cellspacing", jstr "cellpadding", jstr "align", jstr "bgcolor"]),
  (jstr "caption", blockAttribs),
  (jstr "thead", commonAttribs),
  (jstr "tfoot", commonAttribs),
  (jstr "tbody", commonAttribs),
  (jstr "colgroup", commonAttribs ++ [jstr "span"]),
  (jstr "col", commonAttribs ++ [jstr "span"]),
  (jstr "tr", commonAttribs ++ [jstr "bgcolor"] ++ tablealignAttribs),
  (jstr "td", commonAttribs ++ tablecellAttribs ++ tablealignAttribs),
  (jstr "th", commonAttribs ++ tablecellAttribs ++ tablealignAttribs),
  (jstr "a", commonAttribs ++ [jstr "href", jstr "rel", jstr "rev"]),
  (jstr "img", commonAttribs ++
    [jstr "alt", jstr "src", jstr "width", jstr "height", jstr "srcset"]),
  (jstr "audio", commonAttribs ++
    [jstr "controls", jstr "preload", jstr "width", jstr "height"]),
  (jstr "video", commonAttribs ++
    [jstr "poster", jstr "controls", jstr "preload", jstr "width", jstr "height"]),
  (jstr "source", commonAttribs ++ [jstr "type", jstr "src"]),
  (jstr "track", commonAttribs ++
    [jstr "type", jstr "src", jstr "srclang", jstr "kind", jstr "label"]),
  (jstr "tt", commonAttribs),
  (jstr "b", commonAttribs),
  (jstr "i", commonAttribs),
  (jstr "big", commonAttribs),
  (jstr "small", commonAttribs),
  (jstr "strike", commonAttribs),
  (jstr "s", commonAttribs),
  (jstr "u", commonAttribs),
  (jstr "font", commonAttribs ++ [jstr "size", jstr "color", jstr "face"]),
  (jstr "hr", commonAttribs ++ [jstr "width"]),
  (jstr "ruby", commonAttribs),
  (jstr "rb", commonAttribs),
  (jstr "rp", commonAttribs),
  (jstr "rt", commonAttribs),
  (jstr "rtc", commonAttribs),
  (jstr "math", [jstr "class", jstr "style", jstr "id", jstr "title"]),
  (jstr "figure", commonAttribs),
  (jstr "figure-inline", commonAttribs),
  (jstr "figcaption", commonAttribs),
  (jstr "bdi", commonAttribs),
  (jstr "data", commonAttribs ++ [jstr "value"]),
  (jstr "time", commonAttribs ++ [jstr "datetime"]),
  (jstr "mark", commonAttribs),
  (jstr "meta", [jstr "itemprop", jstr "content"]),
  (jstr "link", [jstr "itemprop", jstr "href", jstr "title"])]

/-- The property names a plain `{}` object inherits from
`Object.prototype` (Node/V8): reading any of these on the whitelist
cache or table yields a truthy non-Set value (a function, or the
prototype object itself for `__proto__`) instead of `undefined`. -/
def objectPrototypeKeys : List JStr :=
  [jstr "constructor", jstr "hasOwnProperty", jstr "isPrototypeOf",
   jstr "propertyIsEnumerable", jstr "toLocaleString", jstr "toString",
   jstr "valueOf", jstr "__defineGetter__", jstr "__defineSetter__",
   jstr "__lookupGetter__", jstr "__lookupSetter__", jstr "__proto__"]

/-- What `getAttrWhiteList` can hand to `sanitizeTagAttrs`: a real
`Set` of attribute names, or an inherited `Object.prototype` member
leaked by the cache lookup (on which `.has` is not a function). -/
inductive WlistVal where
  | set (ws : List JStr)
  | nonSet
deriving DecidableEq, Repr

/-- The `wlist.has(k)` on a successfully resolved Set.  (The `nonSet`
row is never consulted: the caller raises a TypeError before calling
`has` on a leaked prototype member.) -/
def WlistVal.hasKey : WlistVal → JStr → Bool
  | .set ws, k => ws.contains k
  | .nonSet, _ => false

/-- The `TokenSanitizer.getAttrWhiteList`: the lazily populated cache in
front of the static table; the cache parameter models its externally
seeded own entries (the unit tests inject some), population itself
being idempotent.  Both `!awlCache[tag]` and `attrWhiteList[tag] || []`
read plain objects and so consult the `Object.prototype` chain: for an
inherited name the cache read is truthy and the inherited member is
returned as-is (not a Set).  In the population branch the tag is
therefore never an inherited name (the guard already returned those,
the cache sharing `Object.prototype`), so the table read cannot hit the
chain, and an unknown tag yields `new Set([])`. -/
def getAttrWhiteList (cache : List (JStr × List JStr)) (tag : JStr) : WlistVal :=
  match assocFind cache tag with
  | some wl => .set wl
  | none =>
    if objectPrototypeKeys.contains tag then .nonSet
    else .set ((assocFind attrWhiteListTable tag).getD [])

/-! ### `sanitizeTagAttrs` and `sanitizeToken` -/

/-- A `newAttrs` entry: `[newValue|null, origValue, origKey]`. -/
abbrev AttrTriple := Option JStr × JsVal × JStr

/-- The `newAttrs` object: insertion-ordered keys; an entry holding
`none` models a key assigned `undefined`. -/
abbrev NewAttrs := List (JStr × Option AttrTriple)

/-- The `newAttrs.itemscope === undefined`. -/
def itemscopeUndefined (acc : NewAttrs) : Bool :=
  match assocFind acc (jstr "itemscope") with
  | none => true
  | some none => true
  | some (some _) => false

/-- The attribute loop of `TokenSanitizer.sanitizeTagAttrs`, iterating
in input order over `attrs` (`attrsAll` is the full list consulted by
`isParsoidAttr`).  Keys and values arrive as flattened strings
(`Util.tokensToString` is external), on which `if (!a.v) a.v = ''` is
the identity. -/
def sanitizeTagAttrsGo (hvp : JStr → Bool) (wlist : WlistVal) (token? : Option Token)
    (attrsAll : List KV) : List KV → NewAttrs → Except JsError NewAttrs
  | [], acc => .ok acc
  | a :: rest, acc =>
    let v := a.v
    let origK := orFalsy a.ksrc a.k
    let k := jsToLower a.k
    let origV := orFalsy a.vsrc v
    let psdAttr := isParsoidAttr k v attrsAll
    if ¬ psdAttr ∧ ¬ getAttribsRegexTest k then
      sanitizeTagAttrsGo hvp wlist token? attrsAll rest
        (upsert acc k (some (none, .str origV, origK)))
    else if ¬ psdAttr ∧ allowRdfaAttrs ∧ xmlnsRETest k then
      if ¬ evilUriRETest v then
        sanitizeTagAttrsGo hvp wlist token? attrsAll rest
          (upsert acc k (some (some v, .str origV, origK)))
      else
        sanitizeTagAttrsGo hvp wlist token? attrsAll rest
          (upsert acc k (some (none, .str origV, origK)))
    else if ¬ psdAttr ∧ ¬ (html5Mode ∧ dataAttrRETest k) ∧ wlist = .nonSet then
      -- the third gate `!(html5Mode && dataRE.test(k)) && !wlist.has(k)`
      -- evaluates left to right; reaching `wlist.has` on a leaked
      -- inherited prototype member raises `wlist.has is not a function`
      .error .typeError
    else if ¬ psdAttr ∧ ¬ (html5Mode ∧ dataAttrRETest k) ∧ ¬ wlist.hasKey k then
      sanitizeTagAttrsGo hvp wlist token? attrsAll rest
        (upsert acc k (some (none, .str origV, origK)))
    else do
      let v ← if k = jstr "style" then checkCss v else .ok v
      let v ← if k = jstr "id" then escapeIdForAttribute v else .ok v
      if microDataAttrs.contains k ∧ evilUriRETest v then
        let newV : Option JStr := if psdAttr then some (jsTrim (stripNonMw origV)) else none
        sanitizeTagAttrsGo hvp wlist token? attrsAll rest
          (upsert acc k (some (newV, .str origV, origK)))
      else
        match token? with
        | some token =>
          if k = jstr "href" ∨ k = jstr "src" ∨ k = jstr "poster" then
            let rel := token.getAttributeShadowInfo (jstr "rel")
            let mode :=
              if k = jstr "href" ∧ wikiLinkValTest rel.value then jstr "wikilink"
              else jstr "external"
            let origHref := (token.getAttributeShadowInfo k).value
            let newHref := cleanUrl hvp v mode
            if newHref ≠ some v then
              sanitizeTagAttrsGo hvp wlist token? attrsAll rest
                (upsert acc k (some (newHref, origHref, origK)))
            else
              sanitizeTagAttrsGo hvp wlist token? attrsAll rest
                (mdaFixup (upsert acc k (some (some v, .str origV, origK))))
          else
            sanitizeTagAttrsGo hvp wlist token? attrsAll rest
              (mdaFixup (upsert acc k (some (some v, .str origV, origK))))
        | none =>
          -- `if (!token) { return newAttrs; }`: early return mid-loop
          .ok acc
where
  /-- The `!allowMda` consistency block; dead under the frozen
  `globalConfig` (`allowMicrodataAttrs` is `true`), in which case it
  would assign `undefined` to `itemtype`/`itemid`. -/
  mdaFixup (acc : NewAttrs) : NewAttrs :=
    if ¬ allowMicrodataAttrs then
      if itemscopeUndefined acc then
        upsert (upsert acc (jstr "itemtype") none) (jstr "itemid") none
      else acc
    else acc

/-- The `TokenSanitizer.sanitizeTagAttrs`: resolve the whitelist for
`tagName || token.name` and run the loop. -/
def sanitizeTagAttrs (hvp : JStr → Bool) (cache : List (JStr × List JStr))
    (tagName : Option JStr) (token? : Option Token) (attrs : List KV) :
    Except JsError NewAttrs :=
  let tokName := match token? with
    | some tok => tok.name
    | none => []
  let tag := orFalsy tagName tokName
  sanitizeTagAttrsGo hvp (getAttrWhiteList cache tag) token? attrs attrs []

/-- The result of `sanitizeToken`: the (mutated) token, or a plain
string replacing a disallowed tag. -/
inductive SanitizedToken where
  | tok (t : Token)
  | text (s : JStr)
deriving DecidableEq, Repr

/-- The `Object.keys(newAttrs).forEach` rebuild loop of
`sanitizeToken`: accepted entries are re-added with shadow info, null
entries only record shadow info under the original key.  An entry
assigned `undefined` would make `vs[0]` raise (dead path, see
`mdaFixup`). -/
def rebuildAttrs : Token → NewAttrs → Except JsError Token
  | t, [] => .ok t
  | t, (j, entry) :: rest =>
    match entry with
    | none => .error .typeError
    | some (vs0, vs1, vs2) =>
      match vs0 with
      | some v => rebuildAttrs (t.addNormalizedAttribute j v vs1) rest
      | none => rebuildAttrs (t.setShadowInfo vs2 .null vs1) rest

/-- The global HTML tag whitelist `WikitextConstants.Sanitizer.TagWhiteList`
lives in `src/lib/config/WikitextConstants.js`, which is not part of the
provided sources; it enters `sanitizeToken` as the parameter
`tagWhiteList` (a set of uppercase tag names). -/
def sanitizeToken (tagWhiteList : List JStr) (cache : List (JStr × List JStr))
    (hvp : JStr → Bool) (token : Token) (inTemplate : Bool) :
    Except JsError SanitizedToken :=
  let attribs := token.attribs
  if isHTMLTag token ∧
      (¬ tagWhiteList.contains (jsToUpper token.name) ∨
        (token.type = .EndTagTk ∧ noEndTagSet.contains token.name)) then
    if ¬ inTemplate ∧ token.tsr.isSome then
      -- `token = token.getWTSource( this.conf );` — in this static
      -- method `this` is the class, `this.conf` is `undefined`, and
      -- `getWTSource` dereferences `env.page`: a TypeError.
      .error .typeError
    else if token.type ≠ .EndTagTk then
      .ok (.text (jstr "<" ++ token.name ++
        attribs.flatMap (fun kv => jstr " " ++ kv.k ++ jstr "='" ++ kv.v ++ jstr "'") ++
        (if token.type = .SelfclosingTagTk then jstr " /" else []) ++ jstr ">"))
    else
      .ok (.text (jstr "</" ++ token.name ++ jstr ">"))
  else
    if attribs.length > 0 then
      if token.type = .TagTk ∨ token.type = .SelfclosingTagTk then do
        let newAttrs ← sanitizeTagAttrs hvp cache none (some token) attribs
        let token ← rebuildAttrs { token with attribs := [] } newAttrs
        .ok (.tok token)
      else
        .ok (.tok { token with attribs := [] })
    else
      .ok (.tok token)

/-! ## Helper lemmas -/

theorem upsert_mem {α : Type} {m : List (JStr × α)} {k : JStr} {v : α} {e : JStr × α}
    (he : e ∈ upsert m k v) : e ∈ m ∨ e = (k, v) := by
  unfold upsert at he
  split at he
  · rcases List.mem_map.1 he with ⟨x, hx, hxe⟩
    by_cases hk : x.1 = k
    · right
      rw [if_pos hk] at hxe
      exact hxe.symm
    · left
      rw [if_neg hk] at hxe
      exact hxe ▸ hx
  · rcases List.mem_append.1 he with h1 | h1
    · exact Or.inl h1
    · right
      simpa using h1

theorem find_map_upsert {α : Type} (m : List (JStr × α)) (k1 k2 : JStr) (v : α)
    (hne : k1 ≠ k2) :
    List.find? (fun e => e.1 = k2) (m.map (fun e => if e.1 = k1 then (k1, v) else e)) =
      List.find? (fun e => e.1 = k2) m := by
  induction m with
  | nil => simp
  | cons e rest ih =>
    by_cases he : e.1 = k1
    · have h3 : (e.1 = k2) = False := by
        simp only [eq_iff_iff, iff_false]
        rw [he]; exact hne
      simp only [List.map_cons, if_pos he, List.find?_cons]
      simp only [h3, hne, decide_False]
      simpa using ih
    · simp only [List.map_cons, if_neg he, List.find?_cons]
      by_cases h4 : e.1 = k2
      · simp [h4]
      · simp only [h4, decide_False]
        simpa using ih

theorem assocFind_upsert_ne {α : Type} {m : List (JStr × α)} {k1 k2 : JStr} {v : α}
    (hne : k1 ≠ k2) : assocFind (upsert m k1 v) k2 = assocFind m k2 := by
  unfold upsert
  split
  · unfold assocFind
    rw [find_map_upsert m k1 k2 v hne]
  · unfold assocFind
    rw [List.find?_append]
    have h0 : List.find? (fun e => e.1 = k2) [(k1, v)] = none := by
      simp [hne]
    rw [h0]
    cases List.find? (fun e => e.1 = k2) m <;> simp

/-! ## C7 -/

/-- C7: `validateCodepoint(cp)` is true exactly on
{0x9, 0xA, 0xD} ∪ [0x20, 0xD7FF] ∪ [0xE000, 0xFFFD] ∪ [0x10000, 0x10FFFF];
it accepts 0x41 and 0x10FFFF and rejects 0xD800 and 0x110000; and
`decodeChar` yields the character (its UTF-16 encoding) on every
accepted code point and the fixed three-byte UTF-8 replacement sequence
`EF BF BD` on every rejected one. -/
theorem validateCodepoint_decodeChar_spec :
    (∀ cp : Nat, validateCodepoint cp = true ↔
      (cp = 0x9 ∨ cp = 0xA ∨ cp = 0xD ∨ (0x20 ≤ cp ∧ cp ≤ 0xD7FF) ∨
       (0xE000 ≤ cp ∧ cp ≤ 0xFFFD) ∨ (0x10000 ≤ cp ∧ cp ≤ 0x10FFFF))) ∧
    validateCodepoint 0x41 = true ∧ validateCodepoint 0x10FFFF = true ∧
    validateCodepoint 0xD800 = false ∧ validateCodepoint 0x110000 = false ∧
    (∀ cp : Nat, validateCodepoint cp = true → decodeChar cp = fromCodePointUnits cp) ∧
    (∀ cp : Nat, validateCodepoint cp = false → decodeChar cp = [0xEF, 0xBF, 0xBD]) := by
  refine ⟨?_, by decide, by decide, by decide, by decide, ?_, ?_⟩
  · intro cp
    simp [validateCodepoint]
  · intro cp h
    simp [decodeChar, h]
  · intro cp h
    simp [decodeChar, h, UTF8_REPLACEMENT]

/-- Witness for C7: the conditional conjuncts applied at 0x41 and
0xD800. -/
theorem validateCodepoint_decodeChar_spec_witness :
    decodeChar 0x41 = fromCodePointUnits 0x41 ∧ decodeChar 0xD800 = [0xEF, 0xBF, 0xBD] :=
  ⟨validateCodepoint_decodeChar_spec.2.2.2.2.2.1 0x41 (by decide),
   validateCodepoint_decodeChar_spec.2.2.2.2.2.2 0xD800 (by decide)⟩

/-! ## C8 -/

/-- C8: `normalizeCss` is not idempotent: on `"&amp;amp;"` one pass
yields `"&amp;"` and a second pass yields `"&"`. -/
theorem normalizeCss_not_idempotent :
    normalizeCss (jstr "&amp;amp;") = .ok (jstr "&amp;") ∧
    normalizeCss (jstr "&amp;") = .ok (jstr "&") ∧
    jstr "&amp;" ≠ jstr "&" :=
  ⟨by rfl, by rfl, by decide⟩

/-! ## C2 -/

/-- A protocol whitelist accepting only `http` and `https` (the parsed
group 1 keeps the `:` and an optional `//`). -/
def httpOnlyProtocols (p : JStr) : Bool :=
  p = jstr "http:" ∨ p = jstr "https:" ∨ p = jstr "http://" ∨ p = jstr "https://"

/-- Counterexample to C2 as stated: in non-wikilink mode the space of
`"http://example.com/a b"` comes out as `+` (the PHP `urlencode`
convention of `phpURLEncode`, which rewrites `%20` to `+`), not as
`%20`. -/
theorem cleanUrl_space_counterexample :
    cleanUrl httpOnlyProtocols (jstr "http://example.com/a b") (jstr "external") =
      some (jstr "http://example.com/a+b") ∧
    jstr "http://example.com/a+b" ≠ jstr "http://example.com/a%20b" :=
  ⟨by rfl, by decide⟩

/-- C2 (amended): `cleanUrl` returns `null` whenever the parsed
protocol prefix is non-empty and rejected by the caller-supplied
validator — in particular on `"javascript:alert(1)"` with an
http/https-only whitelist — and `"http://example.com/a b"` in
non-wikilink mode comes back with the space encoded as `+` (PHP
urlencode convention), not `%20`. -/
theorem cleanUrl_protocol_reject_spec :
    (∀ (vp : JStr → Bool) (href mode proto host path : JStr),
      parseHrefBits (if mode ≠ jstr "wikilink" then
          href.flatMap (fun u => if badUrlUnit u then phpURLEncodeUnit u else [u])
        else href) = some (proto, host, path) →
      proto ≠ [] → vp proto = false →
      cleanUrl vp href mode = none) ∧
    cleanUrl httpOnlyProtocols (jstr "javascript:alert(1)") (jstr "external") = none ∧
    cleanUrl httpOnlyProtocols (jstr "http://example.com/a b") (jstr "external") =
      some (jstr "http://example.com/a+b") := by
  refine ⟨?_, by rfl, by rfl⟩
  intro vp href mode proto host path hp hne hvp
  unfold cleanUrl
  simp only [hp]
  simp [hne, hvp]

/-- Witness for C2's conditional part at the `javascript:` input. -/
theorem cleanUrl_protocol_reject_spec_witness :
    parseHrefBits (if jstr "external" ≠ jstr "wikilink" then
        (jstr "javascript:alert(1)").flatMap
          (fun u => if badUrlUnit u then phpURLEncodeUnit u else [u])
      else jstr "javascript:alert(1)") =
      some (jstr "javascript:", jstr "alert(1)", []) ∧
    jstr "javascript:" ≠ [] ∧
    httpOnlyProtocols (jstr "javascript:") = false ∧
    cleanUrl httpOnlyProtocols (jstr "javascript:alert(1)") (jstr "external") = none :=
  ⟨by rfl, by decide, by decide,
   cleanUrl_protocol_reject_spec.1 httpOnlyProtocols (jstr "javascript:alert(1)")
     (jstr "external") (jstr "javascript:") (jstr "alert(1)") [] (by rfl) (by decide)
     (by decide)⟩

/-! ## C3 -/

/-- C3: whenever `normalizeCss` yields a normalized text with no
control character of `[\x00-\x08\x0B\x0E-\x1F\x7F]`, no
`UTF8_REPLACEMENT` marker, and no `insecureRE` match, `checkCss`
returns that text unchanged; otherwise it returns one of the two fixed
comment placeholder strings.  In particular
`checkCss("color: expression(alert(1))")` is `"/* insecure input */"`. -/
theorem checkCss_spec :
    (∀ t nt : JStr, normalizeCss t = .ok nt →
      ((nt.any isCssControlUnit = false ∧ (indexOfLit UTF8_REPLACEMENT nt).isSome = false ∧
          insecureRETest nt = false) →
        checkCss t = .ok nt) ∧
      (¬ (nt.any isCssControlUnit = false ∧ (indexOfLit UTF8_REPLACEMENT nt).isSome = false ∧
          insecureRETest nt = false) →
        checkCss t = .ok (jstr "/* invalid control char */") ∨
        checkCss t = .ok (jstr "/* insecure input */"))) ∧
    checkCss (jstr "color: expression(alert(1))") = .ok (jstr "/* insecure input */") := by
  refine ⟨?_, by rfl⟩
  intro t nt hn
  have hck : checkCss t =
      (if nt.any isCssControlUnit ∨ (indexOfLit UTF8_REPLACEMENT nt).isSome then
        .ok (jstr "/* invalid control char */")
      else if insecureRETest nt then .ok (jstr "/* insecure input */")
      else .ok nt) := by
    unfold checkCss
    rw [hn]
    rfl
  constructor
  · rintro ⟨h1, h2, h3⟩
    rw [hck]
    simp [h1, h2, h3]
  · intro hbad
    rw [hck]
    by_cases h1 : nt.any isCssControlUnit = true
    · simp [h1]
    · by_cases h2 : (indexOfLit UTF8_REPLACEMENT nt).isSome = true
      · simp [h2]
      · by_cases h3 : insecureRETest nt = true
        · simp [h1, h2, h3]
        · exact absurd ⟨by simpa using h1, by simpa using h2, by simpa using h3⟩ hbad

/-- Witness for C3's conditional part: an input that survives
unchanged and the insecure-pattern example. -/
theorem checkCss_spec_witness :
    normalizeCss (jstr "color: red") = .ok (jstr "color: red") ∧
    checkCss (jstr "color: red") = .ok (jstr "color: red") :=
  ⟨by rfl,
   ((checkCss_spec.1 (jstr "color: red") (jstr "color: red") (by rfl)).1
     ⟨by decide, by rfl, by rfl⟩)⟩

/-! ## C6 -/

/-- C6: `escapeIdInternal` in `html5` mode replaces every space by an
underscore and changes nothing else (so `" a b"` becomes `"_a_b"`); in
`legacy` mode it is exactly space-folding followed by `phpURLEncode`,
`%3A` restored to `:`, and every remaining `%` turned into `.`; and
every other mode raises the fatal `Invalid mode` error. -/
theorem escapeIdInternal_spec :
    (∀ id : JStr, escapeIdInternal id (jstr "html5") =
      .ok (id.map (fun u => if u = 32 then 95 else u))) ∧
    escapeIdInternal (jstr " a b") (jstr "html5") = .ok (jstr "_a_b") ∧
    (∀ id : JStr, escapeIdInternal id (jstr "legacy") =
      (phpURLEncode (id.map (fun u => if u = 32 then 95 else u))).map
        (fun s => (replaceAllLit (jstr "%3A") (jstr ":") s).map
          (fun u => if u = 37 then 46 else u))) ∧
    escapeIdInternal (jstr " a:b") (jstr "legacy") = .ok (jstr "_a:b") ∧
    (∀ (id mode : JStr), mode ≠ jstr "html5" → mode ≠ jstr "legacy" →
      escapeIdInternal id mode = .error (.jsThrow (jstr "Invalid mode: " ++ mode))) := by
  refine ⟨?_, by rfl, ?_, by rfl, ?_⟩
  · intro id
    rfl
  · intro id
    unfold escapeIdInternal
    rw [if_neg (by decide), if_pos rfl]
    cases he : phpURLEncode (id.map (fun u => if u = 32 then 95 else u)) <;>
      simp only [he, Except.map] <;> rfl
  · intro id mode h1 h2
    unfold escapeIdInternal
    rw [if_neg h1, if_neg h2]

/-- Witness for C6's conditional parts at `id = "x"`, `mode = "other"`. -/
theorem escapeIdInternal_spec_witness :
    escapeIdInternal (jstr "x") (jstr "html5") =
      .ok ((jstr "x").map (fun u => if u = 32 then 95 else u)) ∧
    jstr "other" ≠ jstr "html5" ∧ jstr "other" ≠ jstr "legacy" ∧
    escapeIdInternal (jstr "x") (jstr "other") =
      .error (.jsThrow (jstr "Invalid mode: " ++ jstr "other")) :=
  ⟨escapeIdInternal_spec.1 (jstr "x"), by decide, by decide,
   escapeIdInternal_spec.2.2.2.2 (jstr "x") (jstr "other") (by decide) (by decide)⟩

/-! ## C4 -/

/-- An HTML-origin (`stx = 'html'`) opening tag whose name is not in
the tag whitelist and which carries a source range. -/
def c4Token : Token :=
  { type := .TagTk
    name := jstr "div"
    stx := some (jstr "html")
    tsr := some (0, 5) }

/-- C4 (code bug in the first branch): on a disallowed HTML-origin
token carrying a source range with `inTemplate = false`, the source
calls `token.getWTSource(this.conf)` where `this.conf` is `undefined`
(static method), so instead of the claimed literal source substring a
TypeError is raised.  The other two branches behave as claimed: a
non-end-tag without source range is rebuilt as
`<name k='v' ... [ /]>` from the raw pairs and a disallowed end tag
becomes `</name>`. -/
theorem sanitizeToken_tsr_branch_raises :
    isHTMLTag c4Token = true ∧ c4Token.tsr.isSome = true ∧
    ([] : List JStr).contains (jsToUpper c4Token.name) = false ∧
    sanitizeToken [] [] (fun _ => true) c4Token false = .error .typeError ∧
    sanitizeToken [] [] (fun _ => true)
      { type := .SelfclosingTagTk
        name := jstr "foo"
        stx := some (jstr "html")
        attribs := [⟨jstr "a", jstr "b", none, none⟩] } false =
      .ok (.text (jstr "<foo a='b' />")) ∧
    sanitizeToken [] [] (fun _ => true)
      { type := .EndTagTk
        name := jstr "em"
        stx := some (jstr "html") } false =
      .ok (.text (jstr "</em>")) :=
  ⟨by rfl, by rfl, by rfl, by rfl, by rfl, by rfl⟩

/-! ## C10 -/

/-- C10: `stripIDNs` deletes exactly the tab/space and
invisible/joining units listed in `IDN_RE_G`; in wikilink mode (no
percent-encoding pass) `cleanUrl` therefore returns the parsed URL with
those units silently removed from the host. -/
theorem stripIDNs_whitespace_spec :
    (∀ host : JStr, stripIDNs host = host.filter (fun u => ¬ isIdnIgnorable u)) ∧
    (∀ u : Nat, isIdnIgnorable u = true ↔
      (u = 9 ∨ u = 32 ∨ u = 0xAD ∨ u = 0x1806 ∨ u = 0x200B ∨ u = 0x2060 ∨
       u = 0xFEFF ∨ u = 0x34F ∨ u = 0x180B ∨ u = 0x180C ∨ u = 0x180D ∨
       u = 0x200C ∨ u = 0x200D ∨ (0xFE00 ≤ u ∧ u ≤ 0xFE0F))) ∧
    (∀ (vp : JStr → Bool) (href proto host path : JStr),
      parseHrefBits href = some (proto, host, path) →
      (proto ≠ [] → vp proto = true) →
      cleanUrl vp href (jstr "wikilink") =
        some (proto ++ ipv6Rewrite (stripIDNs host) ++ path)) ∧
    cleanUrl (fun p => p ≠ []) (jstr "http://exa mple.com/x") (jstr "wikilink") =
      some (jstr "http://example.com/x") ∧
    cleanUrl (fun p => p ≠ []) (jstr "http://exa\tmple.com/x") (jstr "wikilink") =
      some (jstr "http://example.com/x") := by
  refine ⟨fun host => rfl, ?_, ?_, by rfl, by rfl⟩
  · intro u
    simp [isIdnIgnorable]
  · intro vp href proto host path hp hvp
    unfold cleanUrl
    simp only [if_neg (by simp : ¬ (jstr "wikilink" ≠ jstr "wikilink")), hp]
    by_cases hpe : proto = []
    · simp [hpe]
    · simp [hpe, hvp hpe]

/-- Witness for C10's conditional part at a host containing a space. -/
theorem stripIDNs_whitespace_spec_witness :
    parseHrefBits (jstr "http://exa mple.com/x") =
      some (jstr "http://", jstr "exa mple.com", jstr "/x") ∧
    cleanUrl (fun p => p ≠ []) (jstr "http://exa mple.com/x") (jstr "wikilink") =
      some (jstr "http://" ++ ipv6Rewrite (stripIDNs (jstr "exa mple.com")) ++ jstr "/x") :=
  ⟨by rfl,
   stripIDNs_whitespace_spec.2.2.1 (fun p => p ≠ []) (jstr "http://exa mple.com/x")
     (jstr "http://") (jstr "exa mple.com") (jstr "/x") (by rfl) (fun _ => by decide)⟩

/-! ## C1/C9: the whitelist invariant -/

theorem except_bind_ok {ε α β : Type} (a : α) (f : α → Except ε β) :
    (Except.ok a >>= f : Except ε β) = f a := rfl

theorem except_bind_error {ε α β : Type} (e : ε) (f : α → Except ε β) :
    (Except.error e >>= f : Except ε β) = .error e := rfl

/-- An accepted key passed the key regex and the tag whitelist, or is
one of the privileged exceptions: an `xmlns:*` declaration (RDFa
enabled), a `data-*` key other than `data-ooui` (HTML5 mode), or the
lowercasing of an input attribute recognized as Parsoid-internal. -/
def attrKeyAdmissible (wlist : WlistVal) (attrsAll : List KV) (k : JStr) : Prop :=
  (getAttribsRegexTest k = true ∧ wlist.hasKey k = true) ∨
  (allowRdfaAttrs = true ∧ xmlnsRETest k = true) ∨
  (html5Mode = true ∧ dataAttrRETest k = true) ∨
  (∃ a ∈ attrsAll, jsToLower a.k = k ∧ isParsoidAttr (jsToLower a.k) a.v attrsAll = true)

def newAttrsAdmissible (wlist : WlistVal) (attrsAll : List KV) (m : NewAttrs) : Prop :=
  ∀ e ∈ m, ∀ v1 o k2, e.2 = some (some v1, o, k2) → attrKeyAdmissible wlist attrsAll e.1

theorem inv_upsert_null {wlist : WlistVal} {attrsAll : List KV} {acc : NewAttrs}
    {k k0 : JStr} {o0 : JsVal}
    (hacc : newAttrsAdmissible wlist attrsAll acc) :
    newAttrsAdmissible wlist attrsAll (upsert acc k (some (none, o0, k0))) := by
  intro e he v1 o k2 hev
  rcases upsert_mem he with h | h
  · exact hacc e h v1 o k2 hev
  · rw [h] at hev
    simp at hev

theorem inv_upsert_any {wlist : WlistVal} {attrsAll : List KV} {acc : NewAttrs}
    {k : JStr} {p : Option AttrTriple}
    (hacc : newAttrsAdmissible wlist attrsAll acc)
    (hadm : attrKeyAdmissible wlist attrsAll k) :
    newAttrsAdmissible wlist attrsAll (upsert acc k p) := by
  intro e he v1 o k2 hev
  rcases upsert_mem he with h | h
  · exact hacc e h v1 o k2 hev
  · rw [h]
    exact hadm

/-- The `!allowMda` fixup never adds an accepted entry. -/
theorem mdaFixup_entries {acc : NewAttrs} {e : JStr × Option AttrTriple}
    (he : e ∈ sanitizeTagAttrsGo.mdaFixup acc) :
    e ∈ acc ∨ e.2 = none := by
  unfold sanitizeTagAttrsGo.mdaFixup at he
  simp only [allowMicrodataAttrs] at he
  simp at he
  exact Or.inl he

theorem inv_mdaFixup {wlist : WlistVal} {attrsAll : List KV} {acc : NewAttrs}
    (hacc : newAttrsAdmissible wlist attrsAll acc) :
    newAttrsAdmissible wlist attrsAll (sanitizeTagAttrsGo.mdaFixup acc) := by
  intro e he v1 o k2 hev
  rcases mdaFixup_entries he with h | h
  · exact hacc e h v1 o k2 hev
  · rw [h] at hev
    cases hev

set_option maxHeartbeats 1000000 in
/-- Invariant of the `sanitizeTagAttrs` loop: every entry it accepts
(maps to a non-null value) has an admissible key. -/
theorem sanitizeTagAttrsGo_inv (hvp : JStr → Bool) (wlist : WlistVal)
    (token? : Option Token) (attrsAll : List KV) :
    ∀ (rest : List KV) (acc m : NewAttrs),
      (∀ a ∈ rest, a ∈ attrsAll) →
      newAttrsAdmissible wlist attrsAll acc →
      sanitizeTagAttrsGo hvp wlist token? attrsAll rest acc = .ok m →
      newAttrsAdmissible wlist attrsAll m := by
  intro rest
  induction rest with
  | nil =>
    intro acc m _ hacc hrun
    rw [sanitizeTagAttrsGo] at hrun
    cases hrun
    exact hacc
  | cons a rest ih =>
    intro acc m hsub hacc hrun
    have hmem : a ∈ attrsAll := hsub a (by simp)
    have hsub2 : ∀ b ∈ rest, b ∈ attrsAll := fun b hb => hsub b (by simp [hb])
    rw [sanitizeTagAttrsGo] at hrun
    split at hrun
    · exact ih _ _ hsub2 (inv_upsert_null hacc) hrun
    next hn1 =>
      split at hrun
      next hx =>
        split at hrun
        · exact ih _ _ hsub2
            (inv_upsert_any hacc (Or.inr (Or.inl ⟨hx.2.1, hx.2.2⟩))) hrun
        · exact ih _ _ hsub2 (inv_upsert_null hacc) hrun
      next hn2 =>
        split at hrun
        · -- leaked prototype member: `wlist.has` raises
          cases hrun
        next hn3 =>
          split at hrun
          · exact ih _ _ hsub2 (inv_upsert_null hacc) hrun
          next hn4 =>
            have hadm : attrKeyAdmissible wlist attrsAll (jsToLower a.k) := by
              by_cases hpsd : isParsoidAttr (jsToLower a.k) a.v attrsAll = true
              · exact Or.inr (Or.inr (Or.inr ⟨a, hmem, rfl, hpsd⟩))
              · have hre : getAttribsRegexTest (jsToLower a.k) = true := by
                  by_contra hc
                  exact hn1 ⟨hpsd, hc⟩
                have hwd : (html5Mode = true ∧ dataAttrRETest (jsToLower a.k) = true) ∨
                    wlist.hasKey (jsToLower a.k) = true := by
                  by_contra hc
                  exact hn4 ⟨hpsd, fun h => hc (Or.inl h), fun h => hc (Or.inr h)⟩
                rcases hwd with hd | hwl
                · exact Or.inr (Or.inr (Or.inl hd))
                · exact Or.inl ⟨hre, hwl⟩
            simp only [bind, Except.bind] at hrun
            repeat' (split at hrun)
            all_goals
              first
              | ((cases hrun) <;> exact hacc)
              | (exact ih _ _ hsub2 (inv_upsert_any hacc hadm) hrun)

theorem setShadowInfo_attribs (t : Token) (n : JStr) (v o : JsVal) :
    (t.setShadowInfo n v o).attribs = t.attribs := by
  unfold Token.setShadowInfo
  split
  · split <;> rfl
  · rfl

theorem addNormalizedAttribute_attribs (t : Token) (n v : JStr) (o : JsVal) :
    (t.addNormalizedAttribute n v o).attribs = t.attribs ++ [⟨n, v, none, none⟩] := by
  unfold Token.addNormalizedAttribute
  rw [setShadowInfo_attribs]
  rfl

/-- Every attribute on the rebuilt token comes from the initial token
or from an accepted `newAttrs` entry carrying its key and value. -/
theorem rebuildAttrs_keys :
    ∀ (m : NewAttrs) (t0 t : Token), rebuildAttrs t0 m = .ok t →
      ∀ kv ∈ t.attribs, kv ∈ t0.attribs ∨
        ∃ e ∈ m, e.1 = kv.k ∧ ∃ o k2, e.2 = some (some kv.v, o, k2) := by
  intro m
  induction m with
  | nil =>
    intro t0 t hrun kv hkv
    rw [rebuildAttrs] at hrun
    cases hrun
    exact Or.inl hkv
  | cons e rest ih =>
    intro t0 t hrun kv hkv
    obtain ⟨j, entry⟩ := e
    match entry with
    | none => exact Except.noConfusion hrun
    | some (some v, vs1, vs2) =>
      have hrun2 : rebuildAttrs (t0.addNormalizedAttribute j v vs1) rest = .ok t := hrun
      rcases ih _ _ hrun2 kv hkv with h | ⟨e2, he2, hk, o, k2, hev⟩
      · rw [addNormalizedAttribute_attribs] at h
        rcases List.mem_append.1 h with h1 | h1
        · exact Or.inl h1
        · have hkv2 : kv = ⟨j, v, none, none⟩ := by simpa using h1
          subst hkv2
          exact Or.inr ⟨(j, some (some v, vs1, vs2)), by simp, rfl, vs1, vs2, rfl⟩
      · exact Or.inr ⟨e2, by simp [he2], hk, o, k2, hev⟩
    | some (none, vs1, vs2) =>
      have hrun2 : rebuildAttrs (t0.setShadowInfo vs2 .null vs1) rest = .ok t := hrun
      rcases ih _ _ hrun2 kv hkv with h | ⟨e2, he2, hk, o, k2, hev⟩
      · rw [setShadowInfo_attribs] at h
        exact Or.inl h
      · exact Or.inr ⟨e2, by simp [he2], hk, o, k2, hev⟩

/-- The repository unit test's token: `testelement` with `foo=bar` and
`bar=foo`, whitelist cache seeded with exactly `{foo}`. -/
def c1ExampleToken : Token :=
  { type := .TagTk
    name := jstr "testelement"
    attribs := [⟨jstr "foo", jstr "bar", none, none⟩, ⟨jstr "bar", jstr "foo", none, none⟩] }

/-- Shared invariant: every attribute key on a token surviving
`sanitizeToken` as a token has an admissible key (with respect to the
whitelist its tag name resolves to and its own input attributes). -/
theorem sanitizeToken_keys_admissible :
    ∀ (tagWhiteList : List JStr) (cache : List (JStr × List JStr)) (hvp : JStr → Bool)
        (token : Token) (inTemplate : Bool) (tok2 : Token),
      (token.type = .TagTk ∨ token.type = .SelfclosingTagTk) →
      sanitizeToken tagWhiteList cache hvp token inTemplate = .ok (.tok tok2) →
      ∀ kv ∈ tok2.attribs,
        attrKeyAdmissible (getAttrWhiteList cache token.name) token.attribs kv.k := by
  intro tagWhiteList cache hvp token inTemplate tok2 htype hrun kv hkv
  unfold sanitizeToken at hrun
  simp only [] at hrun
  split at hrun
  · -- disallowed HTML tag: the result is a string or an error
    split at hrun
    · cases hrun
    · split at hrun <;> cases hrun
  · split at hrun
    · -- opening/self-closing with attributes: the rebuild path
      cases hsan : sanitizeTagAttrs hvp cache none (some token) token.attribs with
      | error e =>
        rw [hsan] at hrun
        cases hrun
      | ok newm =>
        rw [hsan] at hrun
        simp only [bind, Except.bind] at hrun
        cases hreb : rebuildAttrs { token with attribs := [] } newm with
        | error e =>
          rw [hreb] at hrun
          cases hrun
        | ok t3 =>
          rw [hreb] at hrun
          cases hrun
          have hadm : newAttrsAdmissible (getAttrWhiteList cache token.name)
              token.attribs newm := by
            refine sanitizeTagAttrsGo_inv hvp (getAttrWhiteList cache token.name)
              (some token) token.attribs token.attribs [] newm (fun a ha => ha) ?_ hsan
            intro e he
            cases he
          rcases rebuildAttrs_keys newm _ _ hreb kv hkv with h | ⟨e2, he2, hk, o, k2, hev⟩
          · cases h
          · have h5 := hadm e2 he2 kv.v o k2 hev
            rw [hk] at h5
            exact h5
    next hlen =>
      -- no attributes: the token is returned unchanged
      cases hrun
      have h6 : token.attribs = [] := by
        cases hl : token.attribs with
        | nil => rfl
        | cons x xs => rw [hl] at hlen; simp at hlen
      rw [h6] at hkv
      cases hkv

/-- C1: every attribute key on a token surviving `sanitizeToken` as an
opening or self-closing tag passes `getAttribsRegex` and sits in the
tag's resolved whitelist, unless it is a privileged exception (an
`xmlns:*` key with RDFa enabled, a `data-*` key other than `data-ooui`
in HTML5 mode, or a Parsoid-internal attribute); and on a tag
whitelisted exactly `{foo}` with inputs `foo=bar`, `bar=foo` the result
has `getAttribute("foo") = "bar"` and `getAttribute("bar") = null`. -/
theorem sanitizeToken_attr_whitelist_inv :
    (∀ (tagWhiteList : List JStr) (cache : List (JStr × List JStr)) (hvp : JStr → Bool)
        (token : Token) (inTemplate : Bool) (tok2 : Token),
      (token.type = .TagTk ∨ token.type = .SelfclosingTagTk) →
      sanitizeToken tagWhiteList cache hvp token inTemplate = .ok (.tok tok2) →
      ∀ kv ∈ tok2.attribs,
        attrKeyAdmissible (getAttrWhiteList cache token.name) token.attribs kv.k) ∧
    (∃ tk, sanitizeToken [] [(jstr "testelement", [jstr "foo"])] (fun p => p ≠ [])
        c1ExampleToken false = .ok (.tok tk) ∧
      tk.getAttribute (jstr "foo") = .str (jstr "bar") ∧
      tk.getAttribute (jstr "bar") = .null) :=
  ⟨sanitizeToken_keys_admissible, ⟨_, by rfl, by decide, by decide⟩⟩

/-- The sanitized form of the unit test's token: only `foo=bar`
survives, with shadow data recording the dropped `bar`. -/
def c1ResultToken : Token :=
  { type := .TagTk
    name := jstr "testelement"
    attribs := [⟨jstr "foo", jstr "bar", none, none⟩]
    da_a := some [(jstr "bar", .null)]
    da_sa := some [(jstr "bar", .str (jstr "foo"))] }

/-- Witness for C1's conditional part at the unit test's token. -/
theorem sanitizeToken_attr_whitelist_inv_witness :
    (c1ExampleToken.type = .TagTk ∨ c1ExampleToken.type = .SelfclosingTagTk) ∧
    sanitizeToken [] [(jstr "testelement", [jstr "foo"])] (fun p => p ≠ [])
      c1ExampleToken false = .ok (.tok c1ResultToken) ∧
    (∀ kv ∈ c1ResultToken.attribs,
      attrKeyAdmissible (getAttrWhiteList [(jstr "testelement", [jstr "foo"])]
        c1ExampleToken.name) c1ExampleToken.attribs kv.k) :=
  ⟨Or.inl rfl, by rfl,
   (sanitizeToken_attr_whitelist_inv.1 [] [(jstr "testelement", [jstr "foo"])]
     (fun p => p ≠ []) c1ExampleToken false c1ResultToken (Or.inl rfl) (by rfl))⟩

/-! ## C9 -/

/-- A non-HTML-origin tag token named `constructor` with one plain
(non-privileged) attribute. -/
def c9CtorToken : Token :=
  { type := .TagTk
    name := jstr "constructor"
    attribs := [⟨jstr "title", jstr "x", none, none⟩] }

set_option maxRecDepth 8192 in
/-- Counterexample to C9 as stated: the tag name `constructor` has no
entry in the static whitelist table, yet `getAttrWhiteList` does not
return the empty set — the cache read `awlCache[tag]` finds the
inherited `Object.prototype` constructor (truthy), skips population and
returns that non-Set member; `sanitizeTagAttrs` then raises
`wlist.has is not a function` at the first non-privileged attribute
instead of rejecting it. -/
theorem getAttrWhiteList_constructor_counterexample :
    assocFind attrWhiteListTable (jstr "constructor") = none ∧
    getAttrWhiteList [] (jstr "constructor") = .nonSet ∧
    WlistVal.nonSet ≠ WlistVal.set [] ∧
    sanitizeToken [] [] (fun p => p ≠ []) c9CtorToken false = .error .typeError :=
  ⟨by rfl, by rfl, by decide, by rfl⟩

/-- C9 (amended): a tag name absent from the static whitelist table
resolves (with an unseeded cache) to the empty attribute set, and every
surviving attribute on such a tag is one of the privileged exceptions —
provided the name is not an inherited `Object.prototype` property name;
for those names the cache lookup leaks the inherited member (not an
empty set) and `sanitizeTagAttrs` raises a TypeError at the first
non-privileged attribute. -/
theorem getAttrWhiteList_default_empty :
    (∀ tag : JStr, assocFind attrWhiteListTable tag = none →
      objectPrototypeKeys.contains tag = false →
      getAttrWhiteList [] tag = .set []) ∧
    (∀ tag : JStr, objectPrototypeKeys.contains tag = true →
      getAttrWhiteList [] tag = .nonSet) ∧
    (∀ (tagWhiteList : List JStr) (hvp : JStr → Bool) (token : Token)
        (inTemplate : Bool) (tok2 : Token),
      (token.type = .TagTk ∨ token.type = .SelfclosingTagTk) →
      assocFind attrWhiteListTable token.name = none →
      objectPrototypeKeys.contains token.name = false →
      sanitizeToken tagWhiteList [] hvp token inTemplate = .ok (.tok tok2) →
      ∀ kv ∈ tok2.attribs,
        (allowRdfaAttrs = true ∧ xmlnsRETest kv.k = true) ∨
        (html5Mode = true ∧ dataAttrRETest kv.k = true) ∨
        (∃ a ∈ token.attribs, jsToLower a.k = kv.k ∧
          isParsoidAttr (jsToLower a.k) a.v token.attribs = true)) := by
  have hempty : ∀ tag : JStr, assocFind attrWhiteListTable tag = none →
      objectPrototypeKeys.contains tag = false →
      getAttrWhiteList [] tag = .set [] := by
    intro tag h hp
    show (if objectPrototypeKeys.contains tag then WlistVal.nonSet
      else .set ((assocFind attrWhiteListTable tag).getD [])) = .set []
    rw [hp, h]
    rfl
  refine ⟨hempty, ?_, ?_⟩
  · intro tag hp
    show (if objectPrototypeKeys.contains tag then WlistVal.nonSet
      else .set ((assocFind attrWhiteListTable tag).getD [])) = .nonSet
    rw [hp]
    rfl
  · intro tagWhiteList hvp token inTemplate tok2 htype htab hproto hrun kv hkv
    have hadm := sanitizeToken_keys_admissible tagWhiteList [] hvp token inTemplate tok2
      htype hrun kv hkv
    rcases hadm with ⟨_, hwl⟩ | h | h | h
    · rw [hempty token.name htab hproto] at hwl
      cases hwl
    · exact Or.inl h
    · exact Or.inr (Or.inl h)
    · exact Or.inr (Or.inr h)

/-- A tag name with no entry in the static table, carrying one `data-*`
attribute (which survives) — for the C9 witness. -/
def c9ExampleToken : Token :=
  { type := .TagTk
    name := jstr "unknowntag"
    attribs := [⟨jstr "data-x", jstr "y", none, none⟩] }

/-- Witness for C9's conditional parts at an unknown tag. -/
theorem getAttrWhiteList_default_empty_witness :
    assocFind attrWhiteListTable (jstr "unknowntag") = none ∧
    objectPrototypeKeys.contains (jstr "unknowntag") = false ∧
    getAttrWhiteList [] (jstr "unknowntag") = .set [] ∧
    objectPrototypeKeys.contains (jstr "toString") = true ∧
    getAttrWhiteList [] (jstr "toString") = .nonSet ∧
    sanitizeToken [] [] (fun p => p ≠ []) c9ExampleToken false =
      .ok (.tok { c9ExampleToken with attribs := [⟨jstr "data-x", jstr "y", none, none⟩] }) ∧
    (∀ kv ∈ ({ c9ExampleToken with
        attribs := [⟨jstr "data-x", jstr "y", none, none⟩] } : Token).attribs,
      (allowRdfaAttrs = true ∧ xmlnsRETest kv.k = true) ∨
      (html5Mode = true ∧ dataAttrRETest kv.k = true) ∨
      (∃ a ∈ c9ExampleToken.attribs, jsToLower a.k = kv.k ∧
        isParsoidAttr (jsToLower a.k) a.v c9ExampleToken.attribs = true)) :=
  ⟨by rfl, by rfl,
   getAttrWhiteList_default_empty.1 (jstr "unknowntag") (by rfl) (by rfl),
   by rfl,
   getAttrWhiteList_default_empty.2.1 (jstr "toString") (by rfl),
   by rfl,
   getAttrWhiteList_default_empty.2.2 [] (fun p => p ≠ []) c9ExampleToken false
     _ (Or.inl rfl) (by rfl) (by rfl) (by rfl)⟩

/-! ## C5 -/

/-- The `setShadowInfo` leaves the shadow map without an entry at `k` when
the write is a no-op (equal values or null original) or targets a
different name. -/
theorem setShadowInfo_sa_absent {t : Token} {n : JStr} {v o : JsVal} {k : JStr}
    (h : assocFind (t.da_sa.getD []) k = none)
    (hcase : v = o ∨ o = .null ∨ n ≠ k) :
    assocFind ((t.setShadowInfo n v o).da_sa.getD []) k = none := by
  unfold Token.setShadowInfo
  split
  next hcond =>
    have hn : n ≠ k := by
      rcases hcase with h1 | h1 | h1
      · exact absurd h1 hcond.1
      · exact absurd h1 hcond.2
      · exact h1
    split
    · simp only [Option.getD_some]
      rw [assocFind_upsert_ne hn]
      simpa using h
    · simpa using h
  · exact h

/-- The `addNormalizedAttribute` does not change the shadow map at an
uninvolved key, nor at its own key when the value equals the
original. -/
theorem addNormalizedAttribute_sa_absent {t : Token} {n : JStr} {v : JStr} {o : JsVal}
    {k : JStr} (h : assocFind (t.da_sa.getD []) k = none)
    (hcase : JsVal.str v = o ∨ o = .null ∨ n ≠ k) :
    assocFind ((t.addNormalizedAttribute n v o).da_sa.getD []) k = none := by
  unfold Token.addNormalizedAttribute
  exact setShadowInfo_sa_absent (t := t.addAttribute n v) h hcase

/-- Through the rebuild loop, the shadow map stays without an entry at
`k` as long as every accepted entry at `k` preserves its original value
and no rejected entry's original key is `k`. -/
theorem rebuildAttrs_sa_absent (k : JStr) :
    ∀ (m : NewAttrs) (t0 t : Token), rebuildAttrs t0 m = .ok t →
      assocFind (t0.da_sa.getD []) k = none →
      (∀ e ∈ m, ∀ vs0 vs1 vs2, e.2 = some (vs0, vs1, vs2) →
        (e.1 = k → vs0 = none ∨ vs1 = .str (vs0.getD [])) ∧
        (vs0 = none → vs2 ≠ k)) →
      assocFind (t.da_sa.getD []) k = none := by
  intro m
  induction m with
  | nil =>
    intro t0 t hrun h0 _
    rw [rebuildAttrs] at hrun
    cases hrun
    exact h0
  | cons e rest ih =>
    intro t0 t hrun h0 hentries
    obtain ⟨j, entry⟩ := e
    match entry with
    | none => exact Except.noConfusion hrun
    | some (some v, vs1, vs2) =>
      have hrun2 : rebuildAttrs (t0.addNormalizedAttribute j v vs1) rest = .ok t := hrun
      have he := hentries (j, some (some v, vs1, vs2)) (by simp) (some v) vs1 vs2 rfl
      refine ih _ _ hrun2 (addNormalizedAttribute_sa_absent h0 ?_) ?_
      · by_cases hj : j = k
        · rcases (he.1 hj) with h1 | h1
          · cases h1
          · exact Or.inl (by simpa using h1.symm)
        · exact Or.inr (Or.inr hj)
      · intro e2 he2 vs0b vs1b vs2b hev
        exact hentries e2 (by simp [he2]) vs0b vs1b vs2b hev
    | some (none, vs1, vs2) =>
      have hrun2 : rebuildAttrs (t0.setShadowInfo vs2 .null vs1) rest = .ok t := hrun
      have he := hentries (j, some (none, vs1, vs2)) (by simp) none vs1 vs2 rfl
      refine ih _ _ hrun2 (setShadowInfo_sa_absent h0 (Or.inr (Or.inr (he.2 rfl)))) ?_
      intro e2 he2 vs0b vs1b vs2b hev
      exact hentries e2 (by simp [he2]) vs0b vs1b vs2b hev

/-- A `span` whose `title` attribute is unchanged by normalization,
plus a rejected attribute whose *original* key (`ksrc`) is `title`. -/
def c5Token : Token :=
  { type := .TagTk
    name := jstr "span"
    attribs := [⟨jstr "title", jstr "bar", none, none⟩,
                ⟨jstr "!bad", jstr "x", some (jstr "title"), none⟩] }

/-- The sanitized form of `c5Token`: `title=bar` survives unchanged,
yet the dropped `!bad` attribute has recorded shadow data under the
name `title`. -/
def c5ResultToken : Token :=
  { type := .TagTk
    name := jstr "span"
    attribs := [⟨jstr "title", jstr "bar", none, none⟩]
    da_a := some [(jstr "title", .null)]
    da_sa := some [(jstr "title", .str (jstr "x"))] }

set_option maxRecDepth 8192 in
/-- Counterexample to C5 as stated: the surviving `title` attribute has
its original source value equal to its normalized value (`bar`, with no
separate `vsrc`), yet after sanitization a shadow entry for the key
`title` exists — written by the dropped attribute whose original key
was `title`. -/
theorem shadow_roundtrip_counterexample :
    sanitizeToken [] [] (fun p => p ≠ []) c5Token false = .ok (.tok c5ResultToken) ∧
    (c5Token.attribs.get? 0) = some ⟨jstr "title", jstr "bar", none, none⟩ ∧
    orFalsy (none : Option JStr) (jstr "bar") = jstr "bar" ∧
    c5ResultToken.getAttribute (jstr "title") = .str (jstr "bar") ∧
    assocFind (c5ResultToken.da_sa.getD []) (jstr "title") = some (.str (jstr "x")) :=
  ⟨by rfl, by rfl, by rfl, by decide, by rfl⟩

/-- C5 (amended): `setShadowInfo` records nothing when the new value
equals the original or the original is null, and never writes
`undefined` into the shadow map; consequently, on a token with no prior
shadow data, a key whose accepted entry preserves its original value
has no shadow entry after sanitization — provided no other entry (in
particular no dropped attribute with that original key) records shadow
data under the same name. -/
theorem setShadowInfo_spec_amended :
    (∀ (t : Token) (name : JStr) (value origValue : JsVal),
      value = origValue ∨ origValue = .null → t.setShadowInfo name value origValue = t) ∧
    (∀ (t : Token) (name : JStr) (value origValue : JsVal),
      (∀ e ∈ (t.da_sa.getD []), e.2 ≠ .undef) →
      ∀ e ∈ ((t.setShadowInfo name value origValue).da_sa.getD []), e.2 ≠ .undef) ∧
    (∀ (tagWhiteList : List JStr) (cache : List (JStr × List JStr)) (hvp : JStr → Bool)
        (token : Token) (inTemplate : Bool) (tok2 : Token) (k : JStr) (m : NewAttrs),
      token.da_sa = none →
      sanitizeTagAttrs hvp cache none (some token) token.attribs = .ok m →
      (∀ e ∈ m, ∀ vs0 vs1 vs2, e.2 = some (vs0, vs1, vs2) →
        (e.1 = k → vs0 = none ∨ vs1 = .str (vs0.getD [])) ∧
        (vs0 = none → vs2 ≠ k)) →
      sanitizeToken tagWhiteList cache hvp token inTemplate = .ok (.tok tok2) →
      assocFind (tok2.da_sa.getD []) k = none) := by
  refine ⟨?_, ?_, ?_⟩
  · intro t name value origValue hcase
    unfold Token.setShadowInfo
    rw [if_neg]
    rcases hcase with h1 | h1
    · exact fun hc => hc.1 h1
    · exact fun hc => hc.2 h1
  · intro t name value origValue hprev e he
    unfold Token.setShadowInfo at he
    split at he
    next hcond =>
      split at he
      · simp only [Option.getD_some] at he
        rcases upsert_mem he with h1 | h1
        · exact hprev e (by simpa using h1)
        · rw [h1]
          next hundef => exact hundef
      · exact hprev e (by simpa using he)
    · exact hprev e he
  · intro tagWhiteList cache hvp token inTemplate tok2 k m hsa0 hm hentries hrun
    unfold sanitizeToken at hrun
    simp only [] at hrun
    split at hrun
    · split at hrun
      · cases hrun
      · split at hrun <;> cases hrun
    · split at hrun
      · split at hrun
        · rw [hm] at hrun
          simp only [bind, Except.bind] at hrun
          cases hreb : rebuildAttrs { token with attribs := [] } m with
          | error e =>
            rw [hreb] at hrun
            cases hrun
          | ok t3 =>
            rw [hreb] at hrun
            cases hrun
            refine rebuildAttrs_sa_absent k m _ _ hreb ?_ hentries
            show assocFind (token.da_sa.getD []) k = none
            rw [hsa0]
            rfl
        · cases hrun
          show assocFind (token.da_sa.getD []) k = none
          rw [hsa0]
          rfl
      next hlen =>
        cases hrun
        rw [hsa0]
        rfl

/-- Witness for C5's conditional parts: a fresh `span title=bar`
token. -/
def c5WitnessToken : Token :=
  { type := .TagTk
    name := jstr "span"
    attribs := [⟨jstr "title", jstr "bar", none, none⟩] }

theorem setShadowInfo_spec_amended_witness :
    c5WitnessToken.da_sa = none ∧
    sanitizeTagAttrs (fun p => p ≠ []) [] none (some c5WitnessToken) c5WitnessToken.attribs =
      .ok [(jstr "title", some (some (jstr "bar"), .str (jstr "bar"), jstr "title"))] ∧
    sanitizeToken [] [] (fun p => p ≠ []) c5WitnessToken false =
      .ok (.tok c5WitnessToken) ∧
    assocFind (c5WitnessToken.da_sa.getD []) (jstr "title") = none :=
  ⟨rfl, by rfl, by rfl,
   setShadowInfo_spec_amended.2.2 [] [] (fun p => p ≠ []) c5WitnessToken false c5WitnessToken
     (jstr "title") [(jstr "title", some (some (jstr "bar"), .str (jstr "bar"), jstr "title"))]
     rfl (by rfl)
     (by
       intro e he vs0 vs1 vs2 hev
       simp only [List.mem_singleton] at he
       subst he
       simp only [Option.some.injEq, Prod.mk.injEq] at hev
       obtain ⟨h1, h2, h3⟩ := hev
       subst h1
       subst h2
       subst h3
       exact ⟨fun _ => Or.inr rfl, fun hc => by cases hc⟩)
     (by rfl)⟩
